import Mathlib

/-!
# OpenWebRTC: a shallow embedding of `transport/owr_payload.c` and `local/owr_video_renderer.c`

The payload object (`OwrPayload`) is embedded as a record of its private
fields together with the view of the subclass instance it belongs to.  The
video renderer is embedded as a record of its private fields and of the
state of its base class it works with; element instances carry a number, so
that two elements made by the same factory under the same name are told
apart, and a bin is the list of its elements in the order they were added.
Machine integers are natural numbers or integers; where a `guint` is
reinterpreted as a `gint`, or a `guint` product can wrap, the reduction
modulo `2^32` is written out.  Values of type `double` are binary64 values
with round-to-nearest-even multiplication.  Calls into the object system
and the media engine (`g_object_set`, `gst_caps_set_simple`,
`gst_element_factory_make`, ...) are embedded by their documented effect on
the data the payload code passes to them.
-/

namespace Owr

/-! ## Data model -/

/-- Modelled from the spec: the enumeration `OwrCodecType` (declared in
`owr_types.h`, which is not among the sources).  The order of the
constructors is the order of the tables `OwrCodecTypePayElementName` and
`OwrCodecTypeDepayElementName`, whose entry 0 is `NULL`. -/
inductive OwrCodecType
  | NONE | PCMU | PCMA | OPUS | H264 | VP8 | VP9
  deriving DecidableEq, Repr

/-- Modelled from the spec: the enumeration `OwrMediaType` (declared in
`owr_types.h`), with the two values the spec lists.  With this type the
`default:` arms of the switches over the media type cannot be reached. -/
inductive OwrMediaType
  | AUDIO | VIDEO
  deriving DecidableEq, Repr

/-- Largest `guint`. -/
def G_MAXUINT : Nat := 4294967295

/-- Largest `gint`. -/
def G_MAXINT : Nat := 2147483647

def DEFAULT_MTU : Nat := 1200
def DEFAULT_BITRATE : Nat := 0
def DEFAULT_RTX_TIME : Nat := 0
def LIMITED_WIDTH : Nat := 640
def LIMITED_HEIGHT : Nat := 480

/-- The value `OWR_RTX_PAYLOAD_TYPE_DISABLED`; `owr_payload_init` stores the
same number and the field comment reads "-1 => no retransmission". -/
def OWR_RTX_PAYLOAD_TYPE_DISABLED : Int := -1

/-- The record `struct _OwrPayloadPrivate`.  The `adaptation` enumeration is
kept as its number. -/
structure OwrPayloadPrivate where
  codec_type : OwrCodecType
  payload_type : Nat
  clock_rate : Nat
  mtu : Nat
  bitrate : Nat
  rtx_payload_type : Int
  rtx_time : Nat
  adaptation : Nat
  deriving DecidableEq, Repr

/-- A property write as `owr_payload_set_property` receives it: the property
id together with the value of the type the property was registered with.
`PROP_MEDIA_TYPE` is registered read-only; `other` stands for any id the
class does not know. -/
inductive PropertyWrite
  | PROP_MEDIA_TYPE (v : OwrMediaType)
  | PROP_CODEC_TYPE (v : OwrCodecType)
  | PROP_PAYLOAD_TYPE (v : Nat)
  | PROP_CLOCK_RATE (v : Nat)
  | PROP_MTU (v : Nat)
  | PROP_BITRATE (v : Nat)
  | PROP_RTX_PAYLOAD_TYPE (v : Int)
  | PROP_RTX_TIME (v : Nat)
  | PROP_ADAPTATION (v : Nat)
  | other (id : Nat)
  deriving DecidableEq, Repr

/-- The function `owr_payload_set_property`: the new private record and
whether the write went through (`false` when `g_return_if_fail` returned
early or the id fell to the `default:` arm, which only warns).  The checks
of `g_return_if_fail` are compiled in, as they are unless the build defines
`G_DISABLE_CHECKS`. -/
def owr_payload_set_property (priv : OwrPayloadPrivate) :
    PropertyWrite → OwrPayloadPrivate × Bool
  | .PROP_CODEC_TYPE v => ({ priv with codec_type := v }, true)
  | .PROP_PAYLOAD_TYPE v => ({ priv with payload_type := v }, true)
  | .PROP_CLOCK_RATE v => ({ priv with clock_rate := v }, true)
  | .PROP_MTU v => ({ priv with mtu := v }, true)
  | .PROP_BITRATE v => ({ priv with bitrate := v }, true)
  | .PROP_RTX_PAYLOAD_TYPE pt =>
      if pt = -1 ∨ pt ≥ 96 then ({ priv with rtx_payload_type := pt }, true)
      else (priv, false)
  | .PROP_RTX_TIME v => ({ priv with rtx_time := v }, true)
  | .PROP_ADAPTATION v => ({ priv with adaptation := v }, true)
  | .PROP_MEDIA_TYPE _ => (priv, false)
  | .other _ => (priv, false)

/-- The parameter specifications installed by `owr_payload_class_init`:
whether the value lies in the registered range of its property.
Enumeration values are in range by their type. -/
def param_spec_in_range : PropertyWrite → Bool
  | .PROP_MEDIA_TYPE _ => true
  | .PROP_CODEC_TYPE _ => true
  | .PROP_PAYLOAD_TYPE v => decide (v ≤ 127)
  | .PROP_CLOCK_RATE v => decide (v ≤ 90000)
  | .PROP_MTU v => decide (v ≤ G_MAXUINT)
  | .PROP_BITRATE v => decide (v ≤ G_MAXUINT)
  | .PROP_RTX_PAYLOAD_TYPE v => decide (-1 ≤ v ∧ v ≤ 127)
  | .PROP_RTX_TIME v => decide (v ≤ G_MAXUINT)
  | .PROP_ADAPTATION _ => true
  | .other _ => false

/-- The flags of the parameter specifications: `G_PARAM_READWRITE` for all
but `media-type`, which is `G_PARAM_READABLE` only. -/
def param_spec_writable : PropertyWrite → Bool
  | .PROP_MEDIA_TYPE _ => false
  | .other _ => false
  | _ => true

/-- The flag `G_PARAM_CONSTRUCT_ONLY` of the parameter specifications. -/
def param_spec_construct_only : PropertyWrite → Bool
  | .PROP_CODEC_TYPE _ => true
  | .PROP_PAYLOAD_TYPE _ => true
  | .PROP_CLOCK_RATE _ => true
  | _ => false

/-- The library call `g_object_set` on one property of a payload, as the
object system dispatches it: a write to a property that is not writable,
that is construct-only once construction is over, or whose value is outside
the registered range is dropped with a warning; any other write is handed to
`owr_payload_set_property`. -/
def g_object_set (constructing : Bool) (priv : OwrPayloadPrivate)
    (w : PropertyWrite) : OwrPayloadPrivate × Bool :=
  if !param_spec_writable w then (priv, false)
  else if param_spec_construct_only w && !constructing then (priv, false)
  else if !param_spec_in_range w then (priv, false)
  else owr_payload_set_property priv w

/-- The function `owr_payload_init` on the zero-filled private record. -/
def owr_payload_init : OwrPayloadPrivate :=
  { codec_type := .NONE, payload_type := 0, clock_rate := 0,
    mtu := DEFAULT_MTU, bitrate := DEFAULT_BITRATE,
    rtx_payload_type := -1, rtx_time := DEFAULT_RTX_TIME, adaptation := 0 }

/-- A history of a payload: property writes applied in order, each one
during or after construction. -/
def run_writes (priv : OwrPayloadPrivate) :
    List (Bool × PropertyWrite) → OwrPayloadPrivate
  | [] => priv
  | (c, w) :: rest => run_writes (g_object_set c priv w).1 rest

/-- The invariant of the data model on the retransmission payload type. -/
def rtx_ok (priv : OwrPayloadPrivate) : Prop :=
  priv.rtx_payload_type = -1 ∨
    (96 ≤ priv.rtx_payload_type ∧ priv.rtx_payload_type ≤ 127)

/-! ## The C type `double` -/

/-- A value of the C type `double` (IEEE 754 binary64): a signed dyadic
number `m * 2^e`, an infinity, or not-a-number. -/
inductive gdouble
  | finite (neg : Bool) (m : Nat) (e : Int)
  | inf (neg : Bool)
  | nan
  deriving DecidableEq, Repr

namespace gdouble

def bit_length_aux : Nat → Nat → Nat
  | 0, _ => 0
  | fuel + 1, m => if m = 0 then 0 else bit_length_aux fuel (m / 2) + 1

/-- Number of binary digits of `m`. -/
def bit_length (m : Nat) : Nat := bit_length_aux m m

/-- Rounding of the exact value `m * 2^e` to binary64, to nearest with ties
to even: at most 53 significant bits, least exponent `-1074`, overflow to
infinity from `2^1024` on. -/
def round (neg : Bool) (m : Nat) (e : Int) : gdouble :=
  if m = 0 then finite neg 0 0
  else
    let top : Int := (bit_length m : Int) + e
    let lsb : Int := max (top - 53) (-1074)
    if lsb ≤ e then
      if top > 1024 then inf neg else finite neg m e
    else
      let shift : Nat := (lsb - e).toNat
      let q := m / 2 ^ shift
      let r := m % 2 ^ shift
      let half := 2 ^ (shift - 1)
      let q1 := if r > half ∨ (r = half ∧ q % 2 = 1) then q + 1 else q
      if (bit_length q1 : Int) + lsb > 1024 then inf neg else finite neg q1 lsb

/-- Multiplication of two `double` values. -/
def mul : gdouble → gdouble → gdouble
  | nan, _ => nan
  | _, nan => nan
  | inf s, inf t => inf (xor s t)
  | inf s, finite t m _ => if m = 0 then nan else inf (xor s t)
  | finite s m _, inf t => if m = 0 then nan else inf (xor s t)
  | finite s m e, finite t n f => round (xor s t) (m * n) (e + f)

/-- The comparison `d > 0.0`. -/
def gt_zero : gdouble → Bool
  | finite neg m _ => !neg && decide (0 < m)
  | inf neg => !neg
  | nan => false

/-- Conversion of a `guint` to `double`, exact below `2^53`. -/
def of_guint (n : Nat) : gdouble := round false n 0

/-- Conversion of a `double` to `guint`: the fractional part is discarded.
The C standard leaves the result undefined when the truncated value is not
a `guint`; `oor` gives what the platform yields there. -/
def to_guint (oor : gdouble → Nat) : gdouble → Nat
  | finite neg m e =>
      let t := if 0 ≤ e then m * 2 ^ e.toNat else m / 2 ^ (-e).toNat
      if t = 0 then 0
      else if neg ∨ t > 4294967295 then oor (finite neg m e) % 4294967296
      else t
  | d => oor d % 4294967296

end gdouble

/-- The constant `LIMITED_FRAMERATE`, 30.0. -/
def LIMITED_FRAMERATE : gdouble := .finite false 30 0

/-- The constant `TARGET_BITS_PER_PIXEL`: the `double` nearest to 0.1,
`0x3FB999999999999A`. -/
def TARGET_BITS_PER_PIXEL : gdouble := .finite false 3602879701896397 (-55)

/-! ## Payload objects -/

/-- The subclass instance a payload is, with the properties the subclass
adds (`owr_audio_payload.c` and `owr_video_payload.c` are not among the
sources; the properties are those `owr_payload.c` reads from them). -/
inductive OwrPayloadInstance
  | audio_payload (channels : Nat) (ptime : Nat)
  | video_payload (width height : Nat) (framerate : gdouble)
      (ccm_fir nack_pli : Bool)
  deriving DecidableEq, Repr

/-- A payload object: the private record of `OwrPayload`, the value its
`media-type` property reads as, and its subclass instance. -/
structure OwrPayload where
  priv : OwrPayloadPrivate
  media_type : OwrMediaType
  inst : OwrPayloadInstance
  deriving DecidableEq, Repr

/-- The test `OWR_IS_VIDEO_PAYLOAD`. -/
def OWR_IS_VIDEO_PAYLOAD (p : OwrPayload) : Bool :=
  match p.inst with
  | .video_payload .. => true
  | .audio_payload .. => false

/-- The test `OWR_IS_AUDIO_PAYLOAD`. -/
def OWR_IS_AUDIO_PAYLOAD (p : OwrPayload) : Bool :=
  match p.inst with
  | .audio_payload .. => true
  | .video_payload .. => false

/-- The call `g_object_get(payload, "width", ..., "height", ..., "framerate",
...)` on locals initialised to zero: a payload without these properties
leaves the locals as they are. -/
def get_width_height_framerate (p : OwrPayload) : Nat × Nat × gdouble :=
  match p.inst with
  | .video_payload width height framerate _ _ => (width, height, framerate)
  | .audio_payload .. => (0, 0, .finite false 0 0)

/-- The call `g_object_get(payload, "channels", ...)` on a local initialised
to zero. -/
def get_channels (p : OwrPayload) : Nat :=
  match p.inst with
  | .audio_payload channels _ => channels
  | .video_payload .. => 0

/-- The ranges `owr_payload_class_init` registers for the two construct-only
numeric properties. -/
def param_spec_valid (priv : OwrPayloadPrivate) : Prop :=
  priv.payload_type ≤ 127 ∧ priv.clock_rate ≤ 90000

instance (priv : OwrPayloadPrivate) : Decidable (param_spec_valid priv) := by
  unfold param_spec_valid
  infer_instance

/-! ## Bitrate estimate -/

/-- The function `evaluate_bitrate_from_payload`.  The product
`width * height` is a `guint` product; it is then converted to `double` and
multiplied by the framerate and by `TARGET_BITS_PER_PIXEL`, and the result
is converted back to `guint`. -/
def evaluate_bitrate_from_payload (oor : gdouble → Nat) (p : OwrPayload) : Nat :=
  if p.priv.bitrate = 0 then
    let (width, height, framerate) := get_width_height_framerate p
    let width := if width > 0 then width else LIMITED_WIDTH
    let height := if height > 0 then height else LIMITED_HEIGHT
    let framerate := if framerate.gt_zero then framerate else LIMITED_FRAMERATE
    gdouble.to_guint oor
      (((gdouble.of_guint ((width * height) % 4294967296)).mul framerate).mul
        TARGET_BITS_PER_PIXEL)
  else p.priv.bitrate

/-- The function `binding_transform_to_kbps`. -/
def binding_transform_to_kbps (bitrate : Nat) : Nat := bitrate / 1000

/-! ## Capability descriptors -/

/-- A typed value of a descriptor field or of an element property. -/
inductive GValue
  | string (s : String)
  | int (i : Int)
  | int64 (i : Int)
  | uint (n : Nat)
  | boolean (b : Bool)
  | double (d : gdouble)
  | fraction (n d : Int)
  deriving DecidableEq, Repr

/-- A `guint` read where a `gint` is expected (a `G_TYPE_INT` field filled
from an unsigned variable): the same 32 bits, read as signed. -/
def to_gint (n : Nat) : Int :=
  if n % 4294967296 < 2147483648 then (n % 4294967296 : Nat)
  else ((n % 4294967296 : Nat) : Int) - 4294967296

/-- Setting one field in a list of named fields: an existing field of that
name takes the value, otherwise the field is added at the end. -/
def set_field (fields : List (String × GValue)) (k : String) (v : GValue) :
    List (String × GValue) :=
  match fields with
  | [] => [(k, v)]
  | (k1, v1) :: rest =>
      if k1 = k then (k, v) :: rest else (k1, v1) :: set_field rest k v

/-- Reading one field in a list of named fields. -/
def get_field (fields : List (String × GValue)) (k : String) : Option GValue :=
  match fields with
  | [] => none
  | (k1, v1) :: rest => if k1 = k then some v1 else get_field rest k

/-- One alternative of a descriptor (`GstStructure` with its features). -/
structure GstStructure where
  name : String
  fields : List (String × GValue)
  features_any : Bool
  deriving DecidableEq, Repr

/-- A descriptor (`GstCaps`): the open-ended "any" descriptor or a list of
alternatives. -/
inductive GstCaps
  | any
  | structures (l : List GstStructure)
  deriving DecidableEq, Repr

def gst_caps_new_empty_simple (name : String) : GstCaps :=
  .structures [{ name := name, fields := [], features_any := false }]

def gst_caps_new_any : GstCaps := .any

/-- The call `gst_caps_set_simple` with one field: the field is set in every
alternative. -/
def gst_caps_set_simple (caps : GstCaps) (k : String) (v : GValue) : GstCaps :=
  match caps with
  | .any => .any
  | .structures l =>
      .structures (l.map fun s => { s with fields := set_field s.fields k v })

/-- The call `gst_caps_set_features(caps, 0, gst_caps_features_new_any())`. -/
def gst_caps_set_features_any (caps : GstCaps) : GstCaps :=
  match caps with
  | .structures (s :: rest) => .structures ({ s with features_any := true } :: rest)
  | c => c

/-- The test `gst_structure_is_subset` on alternatives whose fields hold
single values: same name, and every field of the superset is in the subset
with the same value. -/
def gst_structure_is_subset (sub sup : GstStructure) : Bool :=
  sub.name = sup.name &&
    sup.fields.all fun kv => get_field sub.fields kv.1 = some kv.2

/-- The call `gst_caps_merge_structure`: the alternative is added at the end
unless an alternative already present covers it. -/
def gst_caps_merge_structure (caps : GstCaps) (s : GstStructure) : GstCaps :=
  match caps with
  | .any => .any
  | .structures l =>
      if l.any fun s1 => gst_structure_is_subset s s1 then .structures l
      else .structures (l ++ [s])

/-- The alternatives of a descriptor. -/
def GstCaps.alternatives : GstCaps → List GstStructure
  | .any => []
  | .structures l => l

/-- Reading a field of the first alternative of a descriptor. -/
def GstCaps.field (caps : GstCaps) (k : String) : Option GValue :=
  match caps with
  | .structures (s :: _) => get_field s.fields k
  | _ => none

/-- Modelled from the spec: the nick of a value of the `OwrMediaType`
enumeration, as `g_enum_get_value` finds it in the enumeration class
registered in `owr_types.c` (not among the sources): the lowercase name of
the media type. -/
def g_enum_get_value_nick : OwrMediaType → Option String
  | OwrMediaType.AUDIO => some "audio"
  | OwrMediaType.VIDEO => some "video"

/-- The `switch` of `_owr_payload_create_rtp_caps` over the codec type; the
`default:` arm returns without a descriptor. -/
def rtp_encoding_name : OwrCodecType → Option String
  | .PCMU => some "PCMU"
  | .PCMA => some "PCMA"
  | .OPUS => some "X-GST-OPUS-DRAFT-SPITTKA-00"
  | .H264 => some "H264"
  | .VP8 => some "VP8-DRAFT-IETF-01"
  | .VP9 => some "VP9-DRAFT-IETF-01"
  | .NONE => none

/-- The function `_owr_payload_create_rtp_caps`. -/
def _owr_payload_create_rtp_caps (p : OwrPayload) : Option GstCaps :=
  match rtp_encoding_name p.priv.codec_type with
  | none => none
  | some encoding_name =>
    let caps := gst_caps_new_empty_simple "application/x-rtp"
    let caps := gst_caps_set_simple caps "encoding-name" (.string encoding_name)
    let caps := gst_caps_set_simple caps "payload" (.int (to_gint p.priv.payload_type))
    let caps := gst_caps_set_simple caps "clock-rate" (.int (to_gint p.priv.clock_rate))
    let caps :=
      match g_enum_get_value_nick p.media_type with
      | some nick => gst_caps_set_simple caps "media" (.string nick)
      | none => caps
    match p.inst with
    | .video_payload _ _ _ ccm_fir nack_pli =>
        let caps := gst_caps_set_simple caps "rtcp-fb-ccm-fir" (.boolean ccm_fir)
        some (gst_caps_set_simple caps "rtcp-fb-nack-pli" (.boolean nack_pli))
    | .audio_payload .. =>
        if p.media_type = OwrMediaType.AUDIO then
          let channels := get_channels p
          if channels > 0 then
            some (gst_caps_set_simple caps "channels" (.int (to_gint channels)))
          else some caps
        else some caps

/-- The build platform, as the preprocessor conditions of the file see it. -/
structure Platform where
  apple : Bool
  target_os_iphone : Bool
  target_iphone_simulator : Bool
  android : Bool
  deriving DecidableEq, Repr

/-- The function `_owr_payload_create_raw_caps`.  The library conversion
`gst_util_double_to_fraction` is the parameter `double_to_fraction`. -/
def _owr_payload_create_raw_caps (plat : Platform)
    (double_to_fraction : gdouble → Int × Int) (p : OwrPayload) : Option GstCaps :=
  match p.media_type with
  | OwrMediaType.AUDIO =>
      let channels := if OWR_IS_AUDIO_PAYLOAD p then get_channels p else 0
      let caps := gst_caps_new_empty_simple "audio/x-raw"
      let caps := gst_caps_set_simple caps "rate" (.int (to_gint p.priv.clock_rate))
      if channels > 0 then
        some (gst_caps_set_simple caps "channels" (.int (to_gint channels)))
      else some caps
  | OwrMediaType.VIDEO =>
      let (width, height, framerate) :=
        if OWR_IS_VIDEO_PAYLOAD p then get_width_height_framerate p
        else (0, 0, .finite false 0 0)
      let caps := gst_caps_new_empty_simple "video/x-raw"
      let caps :=
        if plat.apple && p.priv.codec_type = .H264 then gst_caps_set_features_any caps
        else caps
      let caps := gst_caps_set_simple caps "width"
        (.int (to_gint (if width > 0 then width else LIMITED_WIDTH)))
      let caps := gst_caps_set_simple caps "height"
        (.int (to_gint (if height > 0 then height else LIMITED_HEIGHT)))
      let framerate := if framerate.gt_zero then framerate else LIMITED_FRAMERATE
      let fps := double_to_fraction framerate
      some (gst_caps_set_simple caps "framerate" (.fraction fps.1 fps.2))

/-- The function `_owr_payload_create_encoded_caps`. -/
def _owr_payload_create_encoded_caps (p : OwrPayload) : GstCaps :=
  match p.priv.codec_type with
  | .H264 =>
      let caps := gst_caps_new_empty_simple "video/x-h264"
      let caps := gst_caps_set_simple caps "profile" (.string "baseline")
      gst_caps_merge_structure caps
        { name := "video/x-h264",
          fields := set_field [] "profile" (.string "constrained-baseline"),
          features_any := false }
  | .VP8 => gst_caps_new_empty_simple "video/x-vp8"
  | .VP9 => gst_caps_new_empty_simple "video/x-vp9"
  | _ => gst_caps_new_any

/-! ## Elements, property bindings and the host -/

/-- An element of the media engine: the factory it was made from and the
properties set on it, in the order they were first set. -/
structure GstElement where
  factory_name : String
  props : List (String × GValue)
  deriving DecidableEq, Repr

/-- How a binding converts the source value. -/
inductive BindingTransform
  | direct
  | to_kbps
  deriving DecidableEq, Repr

/-- A binding from a payload property to an element property. -/
structure GBinding where
  source_property : String
  target_property : String
  transform : BindingTransform
  deriving DecidableEq, Repr

/-- An encoder element with the bindings that feed it. -/
structure Encoder where
  element : GstElement
  bindings : List GBinding
  deriving DecidableEq, Repr

/-- What the host offers: the detected encoder factories per codec in their
order of preference (`_owr_get_detected_h264_encoders` and its two
siblings), the encoder factory name of the remaining codecs
(`_owr_get_encoder_name`), the decoder factory of a codec
(`_owr_create_decoder` makes an element of it), and which factories yield a
working element. -/
structure Host where
  detected_h264_encoders : List String
  detected_vp8_encoders : List String
  detected_vp9_encoders : List String
  encoder_name : OwrCodecType → Option String
  decoder_name : OwrCodecType → Option String
  instantiable : String → Bool

/-- The library call `gst_element_factory_make`; a `NULL` factory name gives
no element. -/
def gst_element_factory_make (host : Host) (factory : Option String) :
    Option GstElement :=
  match factory with
  | none => none
  | some n => if host.instantiable n then some { factory_name := n, props := [] } else none

/-- Modelled from the spec: the helper `_owr_try_codecs` of `owr_utils.c`
(not among the sources): the candidates are tried in order and the first
one that can be instantiated wins. -/
def _owr_try_codecs (host : Host) : List String → Option GstElement
  | [] => none
  | n :: rest =>
      match gst_element_factory_make host (some n) with
      | some e => some e
      | none => _owr_try_codecs host rest

/-- Modelled from the spec: the helper `_owr_create_decoder` of
`owr_utils.c` (not among the sources): a decoder element for the codec, if
the host can make one. -/
def _owr_create_decoder (host : Host) (codec_type : OwrCodecType) :
    Option GstElement :=
  gst_element_factory_make host (host.decoder_name codec_type)

/-- The call `g_object_set` on one property of an element. -/
def element_set (e : GstElement) (k : String) (v : GValue) : GstElement :=
  { e with props := set_field e.props k v }

/-- The value a binding delivers for a payload bitrate. -/
def GBinding.deliver (b : GBinding) (bitrate : Nat) : GValue :=
  match b.transform with
  | .direct => .uint bitrate
  | .to_kbps => .uint (binding_transform_to_kbps bitrate)

/-- Delivery of the payload bitrate through every binding of an encoder. -/
def sync_bindings (bitrate : Nat) (element : GstElement) :
    List GBinding → GstElement
  | [] => element
  | b :: rest =>
      sync_bindings bitrate (element_set element b.target_property (b.deliver bitrate)) rest

/-- The calls `g_object_bind_property` and `g_object_bind_property_full` from
the payload property `bitrate` with `G_BINDING_SYNC_CREATE`: the binding is
recorded and the target takes the converted source value at once. -/
def bind_bitrate (p : OwrPayload) (enc : Encoder) (target : String)
    (transform : BindingTransform) : Encoder :=
  let b : GBinding :=
    { source_property := "bitrate", target_property := target, transform := transform }
  { element := element_set enc.element target (b.deliver p.priv.bitrate),
    bindings := enc.bindings ++ [b] }

/-- The call `g_object_set(payload, "bitrate", v, NULL)` on a payload whose
bitrate is bound to an encoder: the write goes through `g_object_set`, and
an accepted write is delivered through the bindings. -/
def payload_set_bitrate (p : OwrPayload) (enc : Encoder) (v : Nat) :
    Encoder × OwrPayload :=
  let r := g_object_set false p.priv (.PROP_BITRATE v)
  if r.2 then
    ({ enc with element := sync_bindings r.1.bitrate enc.element enc.bindings },
      { p with priv := r.1 })
  else (enc, p)

/-- The calls `g_object_set` and `gst_util_set_object_arg` on one property
of the element of an encoder. -/
def Encoder.set (enc : Encoder) (k : String) (v : GValue) : Encoder :=
  { enc with element := element_set enc.element k v }

/-- The tuning of an H264 encoder, chosen by the name of its factory. -/
def tune_h264 (plat : Platform) (p : OwrPayload) (encoder : GstElement) : Encoder :=
  let enc : Encoder := { element := encoder, bindings := [] }
  let factory_name := encoder.factory_name
  if factory_name = "openh264enc" then
    let enc := enc.set "gop-size" (.int 0)
    let enc := enc.set "rate-control" (.string "bitrate")
    let enc := enc.set "complexity" (.string "low")
    bind_bitrate p enc "bitrate" .direct
  else if factory_name = "x264enc" then
    let enc := bind_bitrate p enc "bitrate" .to_kbps
    let enc := enc.set "speed-preset" (.string "ultrafast")
    enc.set "tune" (.string "fastdecode+zerolatency")
  else if factory_name = "vtenc_h264" then
    let enc := bind_bitrate p enc "bitrate" .to_kbps
    let enc := enc.set "allow-frame-reordering" (.boolean false)
    let enc := enc.set "realtime" (.boolean true)
    let quality : gdouble :=
      if plat.apple && plat.target_os_iphone then .finite false 0 0
      else .finite false 1 (-1)
    let enc := enc.set "quality" (.double quality)
    enc.set "max-keyframe-interval" (.int G_MAXINT)
  else if factory_name ≠ "omxh264enc" then
    bind_bitrate p enc "bitrate" .direct
  else enc

/-- The tuning of a VP8 encoder. -/
def tune_vp8 (plat : Platform) (p : OwrPayload) (encoder : GstElement) : Encoder :=
  let cpu_used : Int :=
    if (plat.apple && plat.target_os_iphone && !plat.target_iphone_simulator) || plat.android
    then -12 else -6
  let e := element_set encoder "end-usage" (.int 1)
  let e := element_set e "deadline" (.int64 1)
  let e := element_set e "cpu-used" (.int cpu_used)
  let e := element_set e "min-quantizer" (.int 2)
  let e := element_set e "buffer-initial-size" (.int 300)
  let e := element_set e "buffer-optimal-size" (.int 300)
  let e := element_set e "buffer-size" (.int 400)
  let e := element_set e "dropframe-threshold" (.int 30)
  let e := element_set e "lag-in-frames" (.int 0)
  let e := element_set e "timebase" (.fraction 1 90000)
  let e := element_set e "error-resilient" (.int 1)
  let e := element_set e "keyframe-mode" (.int 0)
  bind_bitrate p { element := e, bindings := [] } "target-bitrate" .direct

/-- The tuning of a VP9 encoder. -/
def tune_vp9 (p : OwrPayload) (encoder : GstElement) : Encoder :=
  let e := element_set encoder "end-usage" (.int 1)
  let e := element_set e "deadline" (.int64 1)
  let e := element_set e "cpu-used" (.int 3)
  let e := element_set e "min-quantizer" (.int 2)
  let e := element_set e "max-quantizer" (.int 52)
  let e := element_set e "buffer-initial-size" (.int 500)
  let e := element_set e "buffer-optimal-size" (.int 600)
  let e := element_set e "buffer-size" (.int 1000)
  let e := element_set e "dropframe-threshold" (.int 30)
  let e := element_set e "lag-in-frames" (.int 0)
  let e := element_set e "timebase" (.fraction 1 90000)
  let e := element_set e "error-resilient" (.int 1)
  let e := element_set e "resize-allowed" (.boolean true)
  let e := element_set e "keyframe-mode" (.int 0)
  bind_bitrate p { element := e, bindings := [] } "target-bitrate" .direct

/-- The function `_owr_payload_create_encoder`: the encoder, if one could be
made, and the payload as the call leaves it.  Element instance names are
not part of the embedding. -/
def _owr_payload_create_encoder (host : Host) (plat : Platform)
    (oor : gdouble → Nat) (p : OwrPayload) : Option Encoder × OwrPayload :=
  match p.priv.codec_type with
  | .H264 =>
      match _owr_try_codecs host host.detected_h264_encoders with
      | none => (none, p)
      | some encoder =>
          let enc := tune_h264 plat p encoder
          let r := payload_set_bitrate p enc (evaluate_bitrate_from_payload oor p)
          (some r.1, r.2)
  | .VP8 =>
      match _owr_try_codecs host host.detected_vp8_encoders with
      | none => (none, p)
      | some encoder =>
          let enc := tune_vp8 plat p encoder
          let r := payload_set_bitrate p enc (evaluate_bitrate_from_payload oor p)
          (some r.1, r.2)
  | .VP9 =>
      match _owr_try_codecs host host.detected_vp9_encoders with
      | none => (none, p)
      | some encoder =>
          let enc := tune_vp9 p encoder
          let r := payload_set_bitrate p enc (evaluate_bitrate_from_payload oor p)
          (some r.1, r.2)
  | codec_type =>
      match gst_element_factory_make host (host.encoder_name codec_type) with
      | none => (none, p)
      | some encoder => (some { element := encoder, bindings := [] }, p)

/-- Release of one reference (`gst_object_unref`) in the list of element
instances the caller holds. -/
def gst_object_unref (held : List GstElement) (e : GstElement) : List GstElement :=
  held.erase e

/-- The function `owr_payload_supported`: its result, and the probe
instances still held when it returns. -/
def owr_payload_supported (host : Host) (codec_type : OwrCodecType) :
    Bool × List GstElement :=
  let decoder := _owr_create_decoder host codec_type
  let encoder :=
    match codec_type with
    | .H264 => _owr_try_codecs host host.detected_h264_encoders
    | .VP8 => _owr_try_codecs host host.detected_vp8_encoders
    | .VP9 => _owr_try_codecs host host.detected_vp9_encoders
    | c => gst_element_factory_make host (host.encoder_name c)
  let held := decoder.toList ++ encoder.toList
  let supported := encoder.isSome && decoder.isSome
  let held := match encoder with
    | some e => gst_object_unref held e
    | none => held
  let held := match decoder with
    | some d => gst_object_unref held d
    | none => held
  (supported, held)

/-- The encoder factories `_owr_payload_create_encoder` and
`owr_payload_supported` try for a codec. -/
def encoder_candidates (host : Host) : OwrCodecType → List String
  | .H264 => host.detected_h264_encoders
  | .VP8 => host.detected_vp8_encoders
  | .VP9 => host.detected_vp9_encoders
  | c => (host.encoder_name c).toList

/-! ## Later bitrate writes, packetizer and depacketizer -/

/-- A desktop build. -/
def example_platform : Platform :=
  { apple := false, target_os_iphone := false,
    target_iphone_simulator := false, android := false }

/-- A host on which `openh264enc` is detected but does not work, `x264enc`
and the VP8 and audio elements work, and no VP9 encoder is detected. -/
def example_host : Host :=
  { detected_h264_encoders := ["openh264enc", "x264enc"],
    detected_vp8_encoders := ["vp8enc"],
    detected_vp9_encoders := [],
    encoder_name := fun c =>
      match c with
      | .PCMU => some "mulawenc"
      | .PCMA => some "alawenc"
      | .OPUS => some "opusenc"
      | _ => none,
    decoder_name := fun c =>
      match c with
      | .PCMU => some "mulawdec"
      | .PCMA => some "alawdec"
      | .OPUS => some "opusdec"
      | .H264 => some "openh264dec"
      | .VP8 => some "vp8dec"
      | .VP9 => some "vp9dec"
      | .NONE => none,
    instantiable := fun n => n != "openh264enc" && n != "opusdec" }

/-- An H264 video payload of 640 by 480 at 15 frames per second with no
bitrate configured. -/
def example_payload : OwrPayload :=
  { priv := { owr_payload_init with
      codec_type := .H264, payload_type := 103, clock_rate := 90000 },
    media_type := .VIDEO,
    inst := .video_payload 640 480 (.finite false 15 0) true true }

/-- The constant `VIDEO_SINK`. -/
def VIDEO_SINK : String := "glimagesink"

/-- A `gint` result: the integer reduced to 32 bits, read as signed. -/
def gint_wrap (i : Int) : Int := (i + 2147483648) % 4294967296 - 2147483648

/-- One channel of a colour-balance element (`GstColorBalanceChannel`),
with the value the element holds for it. -/
structure GstColorBalanceChannel where
  label : Option String
  min_value : Int
  max_value : Int
  value : Int
  deriving DecidableEq, Repr

/-- A sink element as `disable_last_sample_on_sink` walks it: a plain
element, or a bin with the sinks `gst_bin_iterate_sinks` yields. -/
inductive SinkElement
  | element (e : GstElement)
  | bin (sinks : List SinkElement)
  deriving Repr

/-- An element instance handled by the renderer: its identity, its element
name (`none` for a name that is unique to the instance), its factory and
properties, its colour-balance channels when it implements
`GstColorBalance`, its sinks when it is a bin, and the window handle set on
it. -/
structure Stage where
  id : Nat
  name : Option String
  element : GstElement
  channels : Option (List GstColorBalanceChannel)
  inner : Option (List SinkElement)
  window_handle : Option Nat
  deriving Repr

/-- Modelled from the spec: a media source as the renderer queries it
(`owr_media_source.c` is not among the sources): its codec, the two
capabilities `_owr_media_source_supports_interfaces` reports, and the
elements of its own bin. -/
structure OwrMediaSource where
  codec_type : OwrCodecType
  supports_color_balance : Bool
  supports_video_orientation : Bool
  source_bin : List Stage
  deriving Repr

/-- The renderer bin: the number in its name, its elements in the order
they were added, and the stage whose sink pad its ghost pad "sink" exposes. -/
structure GstBin where
  bin_id : Nat
  children : List Stage
  ghost_pad : Option Nat
  deriving Repr

/-- A device context handed out by the resolver. -/
structure GstContext where
  handle : Nat
  deriving DecidableEq, Repr

/-- The record `struct _OwrVideoRendererPrivate` (the mutex apart).  The
closure `request_context` is the function it invokes. -/
structure OwrVideoRendererPrivate where
  width : Nat
  height : Nat
  max_framerate : gdouble
  rotation : Int
  mirror : Bool
  tag : Option String
  request_context : Option (String → Option GstContext)
  renderer_bin : Option GstBin

/-- A video renderer object: its private record; the state of its base
class it works with (`owr_media_renderer.c` is not among the sources): the
source `_owr_media_renderer_get_source` returns, the `disabled` property and
the active sink set by `_owr_media_renderer_set_sink`, as the number of the
bin; the user data of the handlers connected to `notify::disabled` and to
`notify::rotation` and `notify::mirror`, oldest first; and the two counters
the file draws on: element instances made, and `unique_bin_id`. -/
structure OwrVideoRenderer where
  priv : OwrVideoRendererPrivate
  source : OwrMediaSource
  disabled : Bool
  sink : Option Nat
  disabled_handlers : List (Option Nat)
  flip_handlers : List (Option Nat)
  next_id : Nat
  unique_bin_id : Nat

/-- What the renderer takes from the media engine and from `owr_utils.c`:
the host; the parser factory of a codec (`_owr_create_parser`); which codec
is raw (`_owr_codec_type_is_raw`); per factory, the colour-balance channels
of its elements, the sinks inside its elements when they are bins, whether
its elements implement the video overlay and whether a video overlay is
found inside them; the property `_owr_update_flip_method` sets on the flip
element for a rotation and a mirror flag, with its value; the outcome of `_owr_bin_link_and_sync_elements` on the
elements of a bin (`link_ok` and `first`); and which stages have a static
pad "sink". -/
structure RenderEnv where
  host : Host
  parser_name : OwrCodecType → Option String
  codec_type_is_raw : OwrCodecType → Bool
  color_balance_channels : String → Option (List GstColorBalanceChannel)
  sink_inner : String → Option (List SinkElement)
  is_video_overlay : String → Bool
  overlay_inside : String → Bool
  update_flip_method : Int → Bool → String × GValue
  link : List Stage → Bool × Option Stage
  has_sink_pad : Stage → Bool

/-- A new instance of an element that could be made. -/
def make_stage (env : RenderEnv) (id : Nat) (name : Option String)
    (e : Option GstElement) : Option Stage :=
  match e with
  | none => none
  | some e =>
      some { id := id, name := name, element := e,
             channels := env.color_balance_channels e.factory_name,
             inner := env.sink_inner e.factory_name,
             window_handle := none }

/-- The instance counter after an attempt to make an element. -/
def fresh (o : Option Stage) (n : Nat) : Nat :=
  match o with
  | some _ => n + 1
  | none => n

/-- Modelled from the spec: the helper `_owr_create_parser` of `owr_utils.c`
(not among the sources), under a longer name: a parser element for the
codec, if the codec has a parser and the host can make it. -/
def _owr_create_parser_element (env : RenderEnv) (codec_type : OwrCodecType) :
    Option GstElement :=
  gst_element_factory_make env.host (env.parser_name codec_type)

/-- The library call `gst_bin_add`: no element, or an element whose name is
already taken in the bin, is not added; any other element is added at the
end. -/
def gst_bin_add (children : List Stage) (e : Option Stage) : List Stage :=
  match e with
  | none => children
  | some s =>
      if children.any (fun c => c.name.isSome && c.name == s.name) then children
      else children ++ [s]

/-- The library call `gst_element_add_pad` for the ghost pad "sink": a bin
that already has a pad of that name keeps it. -/
def gst_element_add_pad (ghost_pad : Option Nat) (target : Nat) : Option Nat :=
  match ghost_pad with
  | some t => some t
  | none => some target

/-! ## Video renderer: the disabled flag -/

/-- The value `renderer_disabled` computes for a channel: `min_value` when
disabled, otherwise `(min_value + max_value) / 2` in `gint` arithmetic. -/
def disabled_channel_value (disabled : Bool) (ch : GstColorBalanceChannel) : Int :=
  if disabled then ch.min_value
  else Int.tdiv (gint_wrap (ch.min_value + ch.max_value)) 2

/-- The loop of `renderer_disabled` over the channels of a colour-balance
element. -/
def drive_channels (disabled : Bool) :
    List GstColorBalanceChannel → List GstColorBalanceChannel
  | [] => []
  | ch :: rest =>
      (if ch.label = some "SATURATION" ∨ ch.label = some "BRIGHTNESS" then
        { ch with value := disabled_channel_value disabled ch }
      else ch) :: drive_channels disabled rest

/-- The fallback of `renderer_disabled`: the first element of the source bin
that implements `GstColorBalance` (`gst_bin_get_by_interface`) has its
channels driven; with no such element nothing changes. -/
def drive_source_bin (disabled : Bool) : List Stage → List Stage
  | [] => []
  | s :: rest =>
      match s.channels with
      | some chs => { s with channels := some (drive_channels disabled chs) } :: rest
      | none => s :: drive_source_bin disabled rest

/-- The function `renderer_disabled` for a disabled flag, the element it is
handed (`none` for `NULL`) and the source bin: the element and the source
bin as it leaves them. -/
def renderer_disabled (disabled : Bool) (balance : Option Stage)
    (source_bin : List Stage) : Option Stage × List Stage :=
  match balance with
  | some b =>
      match b.channels with
      | some chs =>
          (some { b with channels := some (drive_channels disabled chs) }, source_bin)
      | none => (some b, drive_source_bin disabled source_bin)
  | none => (none, drive_source_bin disabled source_bin)

/-! ## Video renderer: graph construction -/

mutual
/-- The function `disable_last_sample_on_sink` on a sink element: a bin is
walked through its sinks, any other element gets `enable-last-sample` set
to `FALSE`. -/
def disable_last_sample_on_sink : SinkElement → SinkElement
  | .element e => .element (element_set e "enable-last-sample" (.boolean false))
  | .bin sinks => .bin (disable_last_sample_on_sinks sinks)
/-- The iteration `gst_iterator_foreach` of `disable_last_sample_on_sink`
over the sinks of a bin. -/
def disable_last_sample_on_sinks : List SinkElement → List SinkElement
  | [] => []
  | s :: rest => disable_last_sample_on_sink s :: disable_last_sample_on_sinks rest
end

/-- The function `disable_last_sample_on_sink` on the display sink made by
`get_sink`. -/
def disable_last_sample_on_stage (sink : Stage) : Stage :=
  match sink.inner with
  | some sinks => { sink with inner := some (disable_last_sample_on_sinks sinks) }
  | none =>
      { sink with element := element_set sink.element "enable-last-sample" (.boolean false) }

/-- The function `owr_video_renderer_get_sink` for the instance number the
new element gets. -/
def owr_video_renderer_get_sink (env : RenderEnv) (id : Nat) : Option Stage :=
  make_stage env id (some "video-renderer-sink")
    (gst_element_factory_make env.host (some VIDEO_SINK))

/-- Modelled from the spec: the helper `_owr_media_renderer_set_sink` of
`owr_media_renderer.c` (not among the sources): the bin becomes the active
sink of the renderer, and `NULL` clears the active sink. -/
def _owr_media_renderer_set_sink (r : OwrVideoRenderer) (sink : Option Nat) :
    OwrVideoRenderer :=
  { r with sink := sink }

/-- The function `owr_video_renderer_get_element`: a new, empty bin becomes
the renderer bin; the number of the bin is returned. -/
def owr_video_renderer_get_element (r : OwrVideoRenderer) : Nat × OwrVideoRenderer :=
  let bin : GstBin := { bin_id := r.unique_bin_id, children := [], ghost_pad := none }
  (bin.bin_id,
    { r with
      priv := { r.priv with renderer_bin := some bin },
      unique_bin_id := (r.unique_bin_id + 1) % 4294967296 })

/-- The locals of `owr_video_renderer_reconfigure_element` once the display
sink has been added: the elements of the bin, the source bin, the user data
of the handlers it has connected (the pointers `balance` and `flip`), and the
instance counter. -/
structure BuiltStages where
  children : List Stage
  source_bin : List Stage
  balance_data : Option Nat
  flip_data : Option Nat
  next_id : Nat
  deriving Repr

/-- The function `owr_video_renderer_reconfigure_element` up to and
including `gst_bin_add(..., sink)`; `none` when `g_assert(sink)` fails.  The
pointer `balance` keeps its value when the balance element is released for
want of a conversion element. -/
def reconfigure_stages (env : RenderEnv) (r : OwrVideoRenderer) (bin : GstBin) :
    Option BuiltStages :=
  let source := r.source
  let codec_type := source.codec_type
  let not_raw := !env.codec_type_is_raw codec_type
  let parser :=
    if not_raw then make_stage env r.next_id none (_owr_create_parser_element env codec_type)
    else none
  let n1 := fresh parser r.next_id
  let decoder :=
    if not_raw then make_stage env n1 none (_owr_create_decoder env.host codec_type)
    else none
  let n2 := fresh decoder n1
  let children := gst_bin_add bin.children parser
  let children := gst_bin_add children decoder
  let upload := make_stage env n2 (some "video-renderer-upload")
    (gst_element_factory_make env.host (some "glupload"))
  let n3 := fresh upload n2
  let children := gst_bin_add children upload
  let balance :=
    if !source.supports_color_balance then
      make_stage env n3 (some "video-renderer-balance")
        (gst_element_factory_make env.host (some "glcolorbalance"))
    else none
  let n4 := fresh balance n3
  let convert :=
    if balance.isSome then
      make_stage env n4 (some "video-renderer-convert")
        (gst_element_factory_make env.host (some "glcolorconvert"))
    else none
  let n5 := fresh convert n4
  let driven :=
    if convert.isSome then renderer_disabled r.disabled balance source.source_bin
    else (balance, source.source_bin)
  let children :=
    if convert.isSome then gst_bin_add (gst_bin_add children convert) driven.1
    else children
  let flip :=
    if !source.supports_video_orientation then
      make_stage env n5 (some "video-renderer-flip")
        (gst_element_factory_make env.host (some "glvideoflip"))
    else none
  let n6 := fresh flip n5
  let method := env.update_flip_method r.priv.rotation r.priv.mirror
  let flipped := flip.map fun f =>
    { f with element := element_set f.element method.1 method.2 }
  let children := gst_bin_add children flipped
  match owr_video_renderer_get_sink env n6 with
  | none => none
  | some sink =>
      some { children := gst_bin_add children (some (disable_last_sample_on_stage sink)),
             source_bin := driven.2,
             balance_data := balance.map fun b => b.id,
             flip_data := flip.map fun f => f.id,
             next_id := n6 + 1 }

/-- The function `owr_video_renderer_reconfigure_element`.  The result is
`none` when an assertion of the function fails: no sink could be made, or
there is no first stage with a pad "sink" to expose.  A failed link
(`link_ok` false) only warns.  With no renderer bin nothing can be added or
linked and the second assertion fails. -/
def owr_video_renderer_reconfigure_element (env : RenderEnv) (r : OwrVideoRenderer) :
    Option OwrVideoRenderer :=
  match r.priv.renderer_bin with
  | none => none
  | some bin =>
    match reconfigure_stages env r bin with
    | none => none
    | some built =>
      match (env.link built.children).2 with
      | none => none
      | some first =>
        if env.has_sink_pad first then
          some { r with
            priv := { r.priv with
              renderer_bin := some { bin with
                children := built.children,
                ghost_pad := gst_element_add_pad bin.ghost_pad first.id } },
            source := { r.source with source_bin := built.source_bin },
            disabled_handlers := r.disabled_handlers ++ [built.balance_data],
            flip_handlers := r.flip_handlers ++ [built.flip_data, built.flip_data],
            next_id := built.next_id }
        else none

/-- The function `_owr_video_renderer_notify_source_changed`. -/
def _owr_video_renderer_notify_source_changed (env : RenderEnv) (r : OwrVideoRenderer) :
    Option OwrVideoRenderer :=
  owr_video_renderer_reconfigure_element env r

/-- The function `owr_video_renderer_get_element_with_window_handle`: the
number of the bin it returns, the sink instance the window handle was set
on, if any, and the renderer as the call leaves it; `none` when an
assertion fails. -/
def owr_video_renderer_get_element_with_window_handle (env : RenderEnv)
    (r : OwrVideoRenderer) (window_handle : Nat) :
    Option (Nat × Option Stage × OwrVideoRenderer) :=
  let built := owr_video_renderer_get_element r
  match owr_video_renderer_reconfigure_element env built.2 with
  | none => none
  | some r2 =>
    match owr_video_renderer_get_sink env r2.next_id with
    | none => none
    | some sink =>
      let r3 := { r2 with next_id := r2.next_id + 1 }
      let sink_element_found :=
        if sink.inner.isSome then env.overlay_inside sink.element.factory_name else true
      let bound :=
        if r3.priv.tag.isSome then
          if sink_element_found && env.is_video_overlay sink.element.factory_name then
            some { sink with window_handle := some window_handle }
          else none
        else none
      some (built.1, bound, r3)

/-- The function `_owr_video_renderer_notify_tag_changed`, together with the
sink instance a window handle was set on; `none` when an assertion fails. -/
def notify_tag_changed_bound (env : RenderEnv) (r : OwrVideoRenderer)
    (tag : Option String) (have_handle : Bool) (new_handle : Nat) :
    Option (Option Stage × OwrVideoRenderer) :=
  match tag with
  | none => some (none, r)
  | some t =>
    if r.priv.tag = some t then
      let r1 := _owr_media_renderer_set_sink r none
      if have_handle then
        match owr_video_renderer_get_element_with_window_handle env r1 new_handle with
        | none => none
        | some (bin_id, bound, r2) =>
            some (bound, _owr_media_renderer_set_sink r2 (some bin_id))
      else some (none, r1)
    else some (none, r)

/-- The function `_owr_video_renderer_notify_tag_changed`: the renderer as
the call leaves it; `none` when an assertion fails. -/
def _owr_video_renderer_notify_tag_changed (env : RenderEnv) (r : OwrVideoRenderer)
    (tag : Option String) (have_handle : Bool) (new_handle : Nat) :
    Option OwrVideoRenderer :=
  (notify_tag_changed_bound env r tag have_handle new_handle).map fun x => x.2

/-- The function `owr_video_renderer_init`, for a source and a state of the
two counters. -/
def owr_video_renderer_init (source : OwrMediaSource) (next_id unique_bin_id : Nat) :
    OwrVideoRenderer :=
  { priv :=
      { width := 0, height := 0, max_framerate := .finite false 0 0, rotation := 0,
        mirror := false, tag := none, request_context := none, renderer_bin := none },
    source := source, disabled := false, sink := none,
    disabled_handlers := [], flip_handlers := [],
    next_id := next_id, unique_bin_id := unique_bin_id }

/-- Construction of a renderer (`owr_video_renderer_new`): `init`, the
construct-only property `tag`, and the part of
`owr_video_renderer_constructed` that makes the bin the active sink when
there is no tag. -/
def owr_video_renderer_new (tag : Option String) (source : OwrMediaSource)
    (next_id unique_bin_id : Nat) : OwrVideoRenderer :=
  let r := owr_video_renderer_init source next_id unique_bin_id
  let r := { r with priv := { r.priv with tag := tag } }
  match tag with
  | some _ => r
  | none =>
      let built := owr_video_renderer_get_element r
      _owr_media_renderer_set_sink built.2 (some built.1)

/-! ## Video renderer: context requests -/

/-- The type of a bus message, as far as the handler tells them apart. -/
inductive GstMessageType
  | NEED_CONTEXT
  | OTHER (code : Nat)
  deriving DecidableEq, Repr

/-- A bus message: its type, the element it comes from and, for a
context-needed request, the context type it names. -/
structure GstMessage where
  type : GstMessageType
  src : Nat
  context_type : String
  deriving DecidableEq, Repr

/-- The enumeration `GstBusSyncReply`. -/
inductive GstBusSyncReply
  | DROP | PASS | ASYNC
  deriving DecidableEq, Repr

/-- What `_owr_handle_gst_sync_message` did: its return value, the context
type the resolver was invoked with, if it was invoked, and the element and
context of the call `gst_element_set_context`, if it was made. -/
structure SyncOutcome where
  reply : GstBusSyncReply
  invoked_with : Option String
  set_context : Option (Nat × GstContext)
  deriving DecidableEq, Repr

/-- The function `owr_video_renderer_set_request_context_callback`. -/
def owr_video_renderer_set_request_context_callback (r : OwrVideoRenderer)
    (callback : String → Option GstContext) : OwrVideoRenderer :=
  { r with priv := { r.priv with request_context := some callback } }

/-- The function `_owr_handle_gst_sync_message`. -/
def _owr_handle_gst_sync_message (r : OwrVideoRenderer) (message : GstMessage) :
    SyncOutcome :=
  match r.priv.request_context with
  | none => { reply := .PASS, invoked_with := none, set_context := none }
  | some request_context =>
    if message.type = .NEED_CONTEXT then
      match request_context message.context_type with
      | some context =>
          { reply := .DROP, invoked_with := some message.context_type,
            set_context := some (message.src, context) }
      | none =>
          { reply := .PASS, invoked_with := some message.context_type,
            set_context := none }
    else { reply := .PASS, invoked_with := none, set_context := none }

/-! ## Example inputs for the renderer -/

/-- A render environment on the example host: H264 has the parser
`h264parse`, the codec None is raw, `glcolorbalance` has four channels,
`glimagesink` is a bin with one sink inside and a video overlay, and linking
succeeds with the first element of the bin as first stage. -/
def example_render_env : RenderEnv :=
  { host := example_host,
    parser_name := fun c =>
      match c with
      | .H264 => some "h264parse"
      | _ => none,
    codec_type_is_raw := fun c => c == .NONE,
    color_balance_channels := fun f =>
      if f = "glcolorbalance" then
        some [{ label := some "HUE", min_value := -1000, max_value := 1000, value := 0 },
              { label := some "SATURATION", min_value := -1000, max_value := 1000, value := 7 },
              { label := some "BRIGHTNESS", min_value := -1000, max_value := 1000, value := 7 },
              { label := some "CONTRAST", min_value := -1000, max_value := 1000, value := 0 }]
      else none,
    sink_inner := fun f =>
      if f = "glimagesink" then
        some [.element { factory_name := "glimagesinkelement", props := [] }]
      else none,
    is_video_overlay := fun f => f == "glimagesink",
    overlay_inside := fun f => f == "glimagesink",
    update_flip_method := fun rotation mirror =>
      ("method", .int (if mirror then rotation + 4 else rotation)),
    link := fun children => (true, children.head?),
    has_sink_pad := fun _ => true }

/-- The example environment on a host that cannot make `glcolorconvert`. -/
def example_render_env_no_convert : RenderEnv :=
  { example_render_env with
    host := { example_host with instantiable := fun n => n != "glcolorconvert" } }

/-- The example environment with a link step that reports failure and still
yields a first stage. -/
def example_render_env_link_fails : RenderEnv :=
  { example_render_env with link := fun children => (false, children.head?) }

/-- The example environment on a host that cannot make `glupload`. -/
def example_render_env_no_upload : RenderEnv :=
  { example_render_env with
    host := { example_host with
      instantiable := fun n => example_host.instantiable n && n != "glupload" } }

/-- A raw source without hardware colour balance or orientation and with an
empty bin. -/
def example_source : OwrMediaSource :=
  { codec_type := .NONE, supports_color_balance := false,
    supports_video_orientation := false, source_bin := [] }

/-- A source that delivers H264 and has both hardware capabilities. -/
def example_source_h264 : OwrMediaSource :=
  { codec_type := .H264, supports_color_balance := true,
    supports_video_orientation := true, source_bin := [] }

/-! ## Retransmission payload type -/

theorem g_object_set_rtx_ok (c : Bool) (priv : OwrPayloadPrivate)
    (w : PropertyWrite) (h : rtx_ok priv) : rtx_ok (g_object_set c priv w).1 := by
  unfold g_object_set
  split
  · exact h
  split
  · exact h
  split
  · exact h
  rename_i h1 h2 h3
  cases w <;> simp only [owr_payload_set_property] <;> try exact h
  rename_i v
  simp [param_spec_in_range] at h3
  split
  · rename_i hv
    unfold rtx_ok
    simp only
    omega
  · exact h

theorem run_writes_rtx_ok (ws : List (Bool × PropertyWrite)) :
    ∀ priv : OwrPayloadPrivate, rtx_ok priv → rtx_ok (run_writes priv ws) := by
  induction ws with
  | nil => intro priv h; exact h
  | cons cw rest ih =>
    intro priv h
    obtain ⟨c, w⟩ := cw
    exact ih _ (g_object_set_rtx_ok c priv w h)

theorem g_object_set_rtx_accept (c : Bool) (priv : OwrPayloadPrivate) (v : Int) :
    (g_object_set c priv (.PROP_RTX_PAYLOAD_TYPE v)).2 = true ↔
      (v = -1 ∨ (96 ≤ v ∧ v ≤ 127)) := by
  simp only [g_object_set, param_spec_writable, param_spec_construct_only,
    param_spec_in_range, owr_payload_set_property]
  by_cases h1 : (-1 ≤ v ∧ v ≤ 127)
  · by_cases h2 : (v = -1 ∨ v ≥ 96)
    · simp [h1, h2]
    · simp [h1, h2]
  · simp [h1]
    omega

theorem g_object_set_rtx_result (c : Bool) (priv : OwrPayloadPrivate) (v : Int) :
    (g_object_set c priv (.PROP_RTX_PAYLOAD_TYPE v)).1 =
      if v = -1 ∨ (96 ≤ v ∧ v ≤ 127) then { priv with rtx_payload_type := v }
      else priv := by
  simp only [g_object_set, param_spec_writable, param_spec_construct_only,
    param_spec_in_range, owr_payload_set_property]
  by_cases h1 : (-1 ≤ v ∧ v ≤ 127)
  · by_cases h2 : (v = -1 ∨ v ≥ 96)
    · have h3 : v = -1 ∨ (96 ≤ v ∧ v ≤ 127) := by omega
      simp [h1, h2, h3]
    · have h3 : ¬ (v = -1 ∨ (96 ≤ v ∧ v ≤ 127)) := by omega
      simp [h1, h2, h3]
  · have h3 : ¬ (v = -1 ∨ (96 ≤ v ∧ v ≤ 127)) := by omega
    simp [h1, h3]

/-- Claim C1: a write of `v` to `rtx-payload-type` is accepted, and then
stores `v` and nothing else, exactly when `v = -1` or `96 ≤ v ≤ 127`; any
other write leaves the whole record as it was; 95 and 128 are rejected, 96
and 127 accepted; and every record reached from `owr_payload_init` by
property writes has its `rtx_payload_type` in `{-1} ∪ [96,127]`. -/
theorem C1_rtx_payload_type_validation :
    (∀ (c : Bool) (priv : OwrPayloadPrivate) (v : Int),
      ((g_object_set c priv (.PROP_RTX_PAYLOAD_TYPE v)).2 = true ↔
        (v = -1 ∨ (96 ≤ v ∧ v ≤ 127))) ∧
      ((v = -1 ∨ (96 ≤ v ∧ v ≤ 127)) →
        (g_object_set c priv (.PROP_RTX_PAYLOAD_TYPE v)).1 =
          { priv with rtx_payload_type := v }) ∧
      (¬ (v = -1 ∨ (96 ≤ v ∧ v ≤ 127)) →
        (g_object_set c priv (.PROP_RTX_PAYLOAD_TYPE v)).1 = priv)) ∧
    (∀ (c : Bool) (priv : OwrPayloadPrivate),
      (g_object_set c priv (.PROP_RTX_PAYLOAD_TYPE 95)).2 = false ∧
      (g_object_set c priv (.PROP_RTX_PAYLOAD_TYPE 128)).2 = false ∧
      (g_object_set c priv (.PROP_RTX_PAYLOAD_TYPE 96)).2 = true ∧
      (g_object_set c priv (.PROP_RTX_PAYLOAD_TYPE 127)).2 = true) ∧
    (∀ ws : List (Bool × PropertyWrite),
      rtx_ok (run_writes owr_payload_init ws)) := by
  refine ⟨?_, ?_, ?_⟩
  · intro c priv v
    refine ⟨g_object_set_rtx_accept c priv v, ?_, ?_⟩
    · intro h
      rw [g_object_set_rtx_result, if_pos h]
    · intro h
      rw [g_object_set_rtx_result, if_neg h]
  · intro c priv
    refine ⟨?_, ?_, ?_, ?_⟩
    · have := g_object_set_rtx_accept c priv 95
      cases hb : (g_object_set c priv (.PROP_RTX_PAYLOAD_TYPE 95)).2
      · rfl
      · exact absurd (this.mp hb) (by omega)
    · have := g_object_set_rtx_accept c priv 128
      cases hb : (g_object_set c priv (.PROP_RTX_PAYLOAD_TYPE 128)).2
      · rfl
      · exact absurd (this.mp hb) (by omega)
    · exact (g_object_set_rtx_accept c priv 96).mpr (by omega)
    · exact (g_object_set_rtx_accept c priv 127).mpr (by omega)
  · intro ws
    exact run_writes_rtx_ok ws owr_payload_init (Or.inl rfl)

/-! ## RTP descriptor -/

theorem to_gint_of_lt (n : Nat) (h : n < 2147483648) : to_gint n = (n : Int) := by
  unfold to_gint
  have h1 : n % 4294967296 = n := Nat.mod_eq_of_lt (by omega)
  rw [h1, if_pos h]

/-- Claim C2: `_owr_payload_create_rtp_caps` returns a descriptor exactly
for the codecs PCMU, PCMA, Opus, H264, VP8 and VP9; for the codec None it
returns none, whatever the other settings are, and a descriptor it returns
carries the encoding name of the `switch` arm of its codec. -/
theorem C2_rtp_caps_known_codecs_only (p : OwrPayload) :
    ((_owr_payload_create_rtp_caps p).isSome = true ↔
      p.priv.codec_type ∈ [OwrCodecType.PCMU, .PCMA, .OPUS, .H264, .VP8, .VP9]) ∧
    ((_owr_payload_create_rtp_caps p = none) ↔ p.priv.codec_type = .NONE) ∧
    _owr_payload_create_rtp_caps
      { p with priv := { p.priv with codec_type := .NONE } } = none := by
  obtain ⟨priv, media, inst⟩ := p
  obtain ⟨codec, pt, cr, mtu, br, rtx, rt, ad⟩ := priv
  refine ⟨?_, ?_, ?_⟩
  · cases codec <;> cases inst <;> cases media <;>
      simp [_owr_payload_create_rtp_caps, rtp_encoding_name, g_enum_get_value_nick] <;>
      split <;> simp
  · cases codec <;> cases inst <;> cases media <;>
      simp [_owr_payload_create_rtp_caps, rtp_encoding_name, g_enum_get_value_nick] <;>
      split <;> simp
  · simp [_owr_payload_create_rtp_caps, rtp_encoding_name]

/-- The ranges of `param_spec_valid` hold on every record reached from
`owr_payload_init` by property writes. -/
theorem g_object_set_param_spec_valid (c : Bool) (priv : OwrPayloadPrivate)
    (w : PropertyWrite) (h : param_spec_valid priv) :
    param_spec_valid (g_object_set c priv w).1 := by
  unfold g_object_set
  split
  · exact h
  split
  · exact h
  split
  · exact h
  rename_i h1 h2 h3
  obtain ⟨hp, hc⟩ := h
  cases w <;> simp only [owr_payload_set_property] <;>
    simp [param_spec_in_range] at h3 <;> try exact ⟨hp, hc⟩
  · exact ⟨h3, hc⟩
  · exact ⟨hp, h3⟩
  · split <;> exact ⟨hp, hc⟩

theorem run_writes_param_spec_valid (ws : List (Bool × PropertyWrite)) :
    ∀ priv : OwrPayloadPrivate, param_spec_valid priv →
      param_spec_valid (run_writes priv ws) := by
  induction ws with
  | nil => intro priv h; exact h
  | cons cw rest ih =>
    intro priv h
    obtain ⟨c, w⟩ := cw
    exact ih _ (g_object_set_param_spec_valid c priv w h)

/-- Claim C3: for a payload with a known codec whose payload type number
and clock rate lie in their registered ranges,
`_owr_payload_create_rtp_caps` returns a descriptor whose `encoding-name`
is the fixed token of the codec, whose `payload` is the payload type
number, whose `clock-rate` is the clock rate and whose `media` is the
lowercase name of the media type. -/
theorem C3_rtp_caps_fields (p : OwrPayload)
    (hcodec : p.priv.codec_type ≠ .NONE) (hvalid : param_spec_valid p.priv) :
    ∃ caps, _owr_payload_create_rtp_caps p = some caps ∧
      caps.field "encoding-name" = some (.string
        (match p.priv.codec_type with
          | .PCMU => "PCMU"
          | .PCMA => "PCMA"
          | .OPUS => "X-GST-OPUS-DRAFT-SPITTKA-00"
          | .H264 => "H264"
          | .VP8 => "VP8-DRAFT-IETF-01"
          | .VP9 => "VP9-DRAFT-IETF-01"
          | .NONE => "")) ∧
      caps.field "payload" = some (.int p.priv.payload_type) ∧
      caps.field "clock-rate" = some (.int p.priv.clock_rate) ∧
      caps.field "media" = some (.string
        (match p.media_type with
          | OwrMediaType.AUDIO => "audio"
          | OwrMediaType.VIDEO => "video")) := by
  obtain ⟨priv, media, inst⟩ := p
  obtain ⟨codec, pt, cr, mtu, br, rtx, rt, ad⟩ := priv
  obtain ⟨hp, hc⟩ := hvalid
  simp only at hp hc hcodec
  have e1 : to_gint pt = (pt : Int) := to_gint_of_lt pt (by omega)
  have e2 : to_gint cr = (cr : Int) := to_gint_of_lt cr (by omega)
  cases codec <;> first | exact absurd rfl hcodec | skip
  all_goals
    cases inst <;> cases media <;>
      simp [_owr_payload_create_rtp_caps, rtp_encoding_name, g_enum_get_value_nick,
        gst_caps_new_empty_simple, gst_caps_set_simple, set_field, get_field,
        GstCaps.field, get_channels, e1, e2] <;>
      (try split) <;>
      simp [gst_caps_new_empty_simple, gst_caps_set_simple, set_field, get_field,
        GstCaps.field]

/-- Witness of C3: an H264 video payload with payload type 103 and clock
rate 90000. -/
theorem C3_rtp_caps_fields_witness :
    ∃ caps, _owr_payload_create_rtp_caps
        { priv := { owr_payload_init with
            codec_type := .H264, payload_type := 103, clock_rate := 90000 },
          media_type := .VIDEO,
          inst := .video_payload 0 0 (.finite false 0 0) true true } = some caps ∧
      caps.field "encoding-name" = some (.string "H264") ∧
      caps.field "payload" = some (.int 103) ∧
      caps.field "clock-rate" = some (.int 90000) ∧
      caps.field "media" = some (.string "video") :=
  C3_rtp_caps_fields
    { priv := { owr_payload_init with
        codec_type := .H264, payload_type := 103, clock_rate := 90000 },
      media_type := .VIDEO,
      inst := .video_payload 0 0 (.finite false 0 0) true true }
    (by decide) (by decide)

/-! ## Raw descriptor -/

/-- Counterexample to C4 as stated: on an H264 video payload of width
`2^31` the `width` field of the raw descriptor is `-2^31`, not the width:
the field is a `gint`. -/
theorem C4_width_above_gint_not_carried :
    (_owr_payload_create_raw_caps
        { apple := false, target_os_iphone := false,
          target_iphone_simulator := false, android := false }
        (fun _ => (30, 1))
        { priv := { owr_payload_init with codec_type := .H264 },
          media_type := .VIDEO,
          inst := .video_payload 2147483648 480 (.finite false 30 0) false false }).bind
      (fun caps => caps.field "width") = some (.int (-2147483648)) ∧
    (GValue.int (-2147483648) ≠ GValue.int 2147483648) := by
  constructor
  · rfl
  · decide

/-- Claim C4, amended: on a video payload the raw descriptor has `width`
equal to the payload width, or 640 when that is 0, and `height` equal to the
payload height, or 480 when that is 0, provided both are below `2^31`; and
when the framerate is not positive (none is set) its `framerate` is the
fraction the library conversion gives for 30.0, which is 30/1. -/
theorem C4_raw_caps_video (plat : Platform) (double_to_fraction : gdouble → Int × Int)
    (priv : OwrPayloadPrivate) (width height : Nat) (framerate : gdouble)
    (ccm_fir nack_pli : Bool)
    (hw : width < 2147483648) (hh : height < 2147483648)
    (hfr : double_to_fraction LIMITED_FRAMERATE = (30, 1)) :
    ∃ caps, _owr_payload_create_raw_caps plat double_to_fraction
        { priv := priv, media_type := .VIDEO,
          inst := .video_payload width height framerate ccm_fir nack_pli } = some caps ∧
      caps.field "width" = some (.int (if width = 0 then 640 else (width : Int))) ∧
      caps.field "height" = some (.int (if height = 0 then 480 else (height : Int))) ∧
      (framerate.gt_zero = false → caps.field "framerate" = some (.fraction 30 1)) := by
  have ew : to_gint (if width > 0 then width else LIMITED_WIDTH) =
      (if width = 0 then 640 else (width : Int)) := by
    rcases Nat.eq_zero_or_pos width with h0 | hpos
    · subst h0
      simp [LIMITED_WIDTH, to_gint]
    · have hne : width ≠ 0 := by omega
      rw [if_pos hpos, if_neg hne]
      exact to_gint_of_lt width hw
  have eh : to_gint (if height > 0 then height else LIMITED_HEIGHT) =
      (if height = 0 then 480 else (height : Int)) := by
    rcases Nat.eq_zero_or_pos height with h0 | hpos
    · subst h0
      simp [LIMITED_HEIGHT, to_gint]
    · have hne : height ≠ 0 := by omega
      rw [if_pos hpos, if_neg hne]
      exact to_gint_of_lt height hh
  by_cases hfeat : (plat.apple && decide (priv.codec_type = .H264)) = true
  · refine ⟨_, rfl, ?_, ?_, ?_⟩
    · simp only [OWR_IS_VIDEO_PAYLOAD, get_width_height_framerate, if_true, hfeat, ew]
      simp [gst_caps_new_empty_simple, gst_caps_set_features_any, gst_caps_set_simple,
        GstCaps.field, set_field, get_field]
    · simp only [OWR_IS_VIDEO_PAYLOAD, get_width_height_framerate, if_true, hfeat, eh]
      simp [gst_caps_new_empty_simple, gst_caps_set_features_any, gst_caps_set_simple,
        GstCaps.field, set_field, get_field]
    · intro hz
      simp only [OWR_IS_VIDEO_PAYLOAD, get_width_height_framerate, if_true, hfeat, hz]
      simp [gst_caps_new_empty_simple, gst_caps_set_features_any, gst_caps_set_simple,
        GstCaps.field, set_field, get_field, hfr]
  · refine ⟨_, rfl, ?_, ?_, ?_⟩
    · simp only [OWR_IS_VIDEO_PAYLOAD, get_width_height_framerate, if_true, hfeat, ew]
      simp [gst_caps_new_empty_simple, gst_caps_set_simple,
        GstCaps.field, set_field, get_field]
    · simp only [OWR_IS_VIDEO_PAYLOAD, get_width_height_framerate, if_true, hfeat, eh]
      simp [gst_caps_new_empty_simple, gst_caps_set_simple,
        GstCaps.field, set_field, get_field]
    · intro hz
      simp only [OWR_IS_VIDEO_PAYLOAD, get_width_height_framerate, if_true, hfeat, hz]
      simp [gst_caps_new_empty_simple, gst_caps_set_simple,
        GstCaps.field, set_field, get_field, hfr]

/-- Witness of C4: an H264 video payload with no width, height or framerate
set, on a host whose conversion maps every framerate to 30/1. -/
theorem C4_raw_caps_video_witness :
    ∃ caps, _owr_payload_create_raw_caps
        { apple := true, target_os_iphone := false,
          target_iphone_simulator := false, android := false }
        (fun _ => (30, 1))
        { priv := { owr_payload_init with codec_type := .H264 },
          media_type := .VIDEO,
          inst := .video_payload 0 0 (.finite false 0 0) false false } = some caps ∧
      caps.field "width" = some (.int (if (0 : Nat) = 0 then 640 else ((0 : Nat) : Int))) ∧
      caps.field "height" = some (.int (if (0 : Nat) = 0 then 480 else ((0 : Nat) : Int))) ∧
      (gdouble.gt_zero (.finite false 0 0) = false →
        caps.field "framerate" = some (.fraction 30 1)) :=
  C4_raw_caps_video
    { apple := true, target_os_iphone := false,
      target_iphone_simulator := false, android := false }
    (fun _ => (30, 1)) { owr_payload_init with codec_type := .H264 } 0 0
    (.finite false 0 0) false false (by decide) (by decide) rfl

/-! ## Bitrate estimate -/

set_option maxRecDepth 8192

/-- Claim C5 at its failing input: with no bitrate configured, width 65536,
height 65536 and framerate 1.0, `evaluate_bitrate_from_payload` returns 0,
because the `guint` product `width * height` has wrapped to 0; the product
of the three values times 0.1, truncated, is 429496729, which is a `guint`.
With nothing set the estimate is 921600. -/
theorem C5_estimate_wraps_at_65536_squared (oor : gdouble → Nat)
    (media : OwrMediaType) (ccm_fir nack_pli : Bool) :
    evaluate_bitrate_from_payload oor
      { priv := { owr_payload_init with codec_type := .VP8, bitrate := 0 },
        media_type := media,
        inst := .video_payload 65536 65536 (.finite false 1 0) ccm_fir nack_pli } = 0 ∧
    (65536 * 65536 * 1 / 10 = 429496729 ∧ 429496729 ≤ G_MAXUINT) ∧
    evaluate_bitrate_from_payload oor
      { priv := { owr_payload_init with codec_type := .VP8, bitrate := 0 },
        media_type := media,
        inst := .video_payload 0 0 (.finite false 0 0) ccm_fir nack_pli } = 921600 := by
  refine ⟨rfl, ⟨by decide, by decide⟩, rfl⟩

/-- Claim C6: on a payload with width 640, height 480, framerate 15.0 (in
either writing of that number) and no bitrate configured,
`evaluate_bitrate_from_payload` returns 460800, which is neither 768000 nor
460799. -/
theorem C6_estimate_640_480_15 (oor : gdouble → Nat) (priv : OwrPayloadPrivate)
    (media : OwrMediaType) (ccm_fir nack_pli : Bool) :
    evaluate_bitrate_from_payload oor
      { priv := { priv with bitrate := 0 }, media_type := media,
        inst := .video_payload 640 480 (.finite false 15 0) ccm_fir nack_pli } = 460800 ∧
    evaluate_bitrate_from_payload oor
      { priv := { priv with bitrate := 0 }, media_type := media,
        inst := .video_payload 640 480 (.finite false 8444249301319680 (-49))
          ccm_fir nack_pli } = 460800 ∧
    (460800 : Nat) ≠ 768000 ∧ (460800 : Nat) ≠ 460799 := by
  refine ⟨rfl, rfl, by decide, by decide⟩

theorem to_guint_le (oor : gdouble → Nat) (d : gdouble) :
    gdouble.to_guint oor d ≤ G_MAXUINT := by
  have hmod : ∀ n : Nat, n % 4294967296 ≤ G_MAXUINT := by
    intro n
    have := Nat.mod_lt n (show 4294967296 > 0 by decide)
    unfold G_MAXUINT
    omega
  cases d with
  | finite neg m e =>
    simp only [gdouble.to_guint]
    generalize (if 0 ≤ e then m * 2 ^ e.toNat else m / 2 ^ (-e).toNat) = t
    by_cases h1 : t = 0
    · rw [if_pos h1]
      exact Nat.zero_le _
    · rw [if_neg h1]
      by_cases h2 : neg = true ∨ t > 4294967295
      · rw [if_pos h2]
        exact hmod _
      · rw [if_neg h2]
        unfold G_MAXUINT
        omega
  | inf neg => exact hmod _
  | nan => exact hmod _

theorem evaluate_bitrate_of_ne_zero (oor : gdouble → Nat) (p : OwrPayload)
    (h : p.priv.bitrate ≠ 0) : evaluate_bitrate_from_payload oor p = p.priv.bitrate := by
  unfold evaluate_bitrate_from_payload
  rw [if_neg h]

theorem evaluate_bitrate_le_of_zero (oor : gdouble → Nat) (p : OwrPayload)
    (h : p.priv.bitrate = 0) : evaluate_bitrate_from_payload oor p ≤ G_MAXUINT := by
  unfold evaluate_bitrate_from_payload
  rw [if_pos h]
  exact to_guint_le oor _

/-- Writing the estimate back stores it in the bitrate and changes nothing
else. -/
theorem payload_set_bitrate_evaluate (oor : gdouble → Nat) (p : OwrPayload)
    (enc : Encoder) :
    (payload_set_bitrate p enc (evaluate_bitrate_from_payload oor p)).2 =
      { p with priv := { p.priv with bitrate := evaluate_bitrate_from_payload oor p } } := by
  by_cases hb : p.priv.bitrate = 0
  · have hle := evaluate_bitrate_le_of_zero oor p hb
    simp [payload_set_bitrate, g_object_set, param_spec_writable,
      param_spec_construct_only, param_spec_in_range, owr_payload_set_property, hle]
  · have he := evaluate_bitrate_of_ne_zero oor p hb
    rw [he]
    by_cases hle : p.priv.bitrate ≤ G_MAXUINT
    · simp [payload_set_bitrate, g_object_set, param_spec_writable,
        param_spec_construct_only, param_spec_in_range, owr_payload_set_property, hle]
    · simp [payload_set_bitrate, g_object_set, param_spec_writable,
        param_spec_construct_only, param_spec_in_range, hle]

/-- The payload `_owr_payload_create_encoder` leaves behind when it returns
an encoder for H264, VP8 or VP9. -/
theorem create_encoder_payload (host : Host) (plat : Platform) (oor : gdouble → Nat)
    (p : OwrPayload)
    (hcodec : p.priv.codec_type = .H264 ∨ p.priv.codec_type = .VP8 ∨
      p.priv.codec_type = .VP9)
    (h : (_owr_payload_create_encoder host plat oor p).1.isSome = true) :
    (_owr_payload_create_encoder host plat oor p).2 =
      { p with priv := { p.priv with bitrate := evaluate_bitrate_from_payload oor p } } := by
  unfold _owr_payload_create_encoder at h ⊢
  rcases hcodec with hc | hc | hc
  · rw [hc] at h ⊢
    simp only at h ⊢
    cases ht : _owr_try_codecs host host.detected_h264_encoders with
    | none => rw [ht] at h; simp at h
    | some e => simp only [ht]; exact payload_set_bitrate_evaluate oor p _
  · rw [hc] at h ⊢
    simp only at h ⊢
    cases ht : _owr_try_codecs host host.detected_vp8_encoders with
    | none => rw [ht] at h; simp at h
    | some e => simp only [ht]; exact payload_set_bitrate_evaluate oor p _
  · rw [hc] at h ⊢
    simp only at h ⊢
    cases ht : _owr_try_codecs host host.detected_vp9_encoders with
    | none => rw [ht] at h; simp at h
    | some e => simp only [ht]; exact payload_set_bitrate_evaluate oor p _

/-- The estimate of a payload does not change when the estimate is stored as
its bitrate. -/
theorem evaluate_bitrate_stored (oor : gdouble → Nat) (p : OwrPayload) :
    evaluate_bitrate_from_payload oor
      { p with priv := { p.priv with bitrate := evaluate_bitrate_from_payload oor p } } =
      evaluate_bitrate_from_payload oor p := by
  by_cases h0 : evaluate_bitrate_from_payload oor p = 0
  · have hb : p.priv.bitrate = 0 := by
      by_contra hne
      rw [evaluate_bitrate_of_ne_zero oor p hne] at h0
      exact hne h0
    rw [h0]
    have hp : ({ p with priv := { p.priv with bitrate := 0 } } : OwrPayload) = p := by
      obtain ⟨priv, media, inst⟩ := p
      obtain ⟨codec, pt, cr, mtu, br, rtx, rt, ad⟩ := priv
      simp only at hb
      subst hb
      rfl
    rw [hp, h0]
  · rw [evaluate_bitrate_of_ne_zero oor _ h0]

/-- Claim C7: when `_owr_payload_create_encoder` returns an encoder for
H264, VP8 or VP9, the bitrate it leaves in the payload is
`evaluate_bitrate_from_payload` of the payload before the call and no other
setting has changed; a nonzero bitrate is kept; the estimate of the
resulting payload is that same stored value; and the estimate of any
payload with a nonzero bitrate is its bitrate. -/
theorem C7_bitrate_written_back (host : Host) (plat : Platform) (oor : gdouble → Nat)
    (p : OwrPayload)
    (hcodec : p.priv.codec_type = .H264 ∨ p.priv.codec_type = .VP8 ∨
      p.priv.codec_type = .VP9)
    (h : (_owr_payload_create_encoder host plat oor p).1.isSome = true) :
    (_owr_payload_create_encoder host plat oor p).2 =
      { p with priv := { p.priv with bitrate := evaluate_bitrate_from_payload oor p } } ∧
    (_owr_payload_create_encoder host plat oor p).2.priv.bitrate =
      evaluate_bitrate_from_payload oor p ∧
    (p.priv.bitrate ≠ 0 →
      (_owr_payload_create_encoder host plat oor p).2.priv.bitrate = p.priv.bitrate) ∧
    evaluate_bitrate_from_payload oor (_owr_payload_create_encoder host plat oor p).2 =
      (_owr_payload_create_encoder host plat oor p).2.priv.bitrate ∧
    (∀ q : OwrPayload, q.priv.bitrate ≠ 0 →
      evaluate_bitrate_from_payload oor q = q.priv.bitrate) := by
  have hp := create_encoder_payload host plat oor p hcodec h
  refine ⟨hp, ?_, ?_, ?_, ?_⟩
  · rw [hp]
  · intro hne
    rw [hp]
    exact evaluate_bitrate_of_ne_zero oor p hne
  · rw [hp]
    exact evaluate_bitrate_stored oor p
  · intro q hq
    exact evaluate_bitrate_of_ne_zero oor q hq

/-- Witness of C7: on the example host the H264 example payload gets the
encoder `x264enc` and the bitrate 460800. -/
theorem C7_bitrate_written_back_witness :
    (_owr_payload_create_encoder example_host example_platform (fun _ => 0)
        example_payload).1.isSome = true ∧
    (_owr_payload_create_encoder example_host example_platform (fun _ => 0)
        example_payload).2.priv.bitrate = 460800 ∧
    evaluate_bitrate_from_payload (fun _ => 0)
      (_owr_payload_create_encoder example_host example_platform (fun _ => 0)
        example_payload).2 = 460800 :=
  ⟨rfl,
    (C7_bitrate_written_back example_host example_platform (fun _ => 0)
      example_payload (Or.inl rfl) rfl).2.1.trans rfl,
    ((C7_bitrate_written_back example_host example_platform (fun _ => 0)
      example_payload (Or.inl rfl) rfl).2.2.2.1).trans rfl⟩

/-! ## Encoder selection -/

theorem try_codecs_eq_none (host : Host) (l : List String) :
    _owr_try_codecs host l = none ↔ ∀ n ∈ l, host.instantiable n = false := by
  induction l with
  | nil => simp [_owr_try_codecs]
  | cons n rest ih =>
    simp only [_owr_try_codecs, gst_element_factory_make]
    by_cases hn : host.instantiable n = true
    · simp [hn]
    · simp only [Bool.not_eq_true] at hn
      simp [hn, ih]

theorem try_codecs_eq_some (host : Host) (l : List String) (e : GstElement)
    (h : _owr_try_codecs host l = some e) :
    e.factory_name ∈ l ∧ host.instantiable e.factory_name = true ∧ e.props = [] := by
  induction l with
  | nil => simp [_owr_try_codecs] at h
  | cons n rest ih =>
    simp only [_owr_try_codecs, gst_element_factory_make] at h
    by_cases hn : host.instantiable n = true
    · simp only [hn, if_true, Option.some.injEq] at h
      subst h
      exact ⟨List.mem_cons_self _ _, hn, rfl⟩
    · simp only [Bool.not_eq_true] at hn
      simp only [hn] at h
      obtain ⟨h1, h2, h3⟩ := ih h
      exact ⟨List.mem_cons_of_mem _ h1, h2, h3⟩

theorem factory_make_eq_none (host : Host) (o : Option String) :
    gst_element_factory_make host o = none ↔
      ∀ n ∈ o.toList, host.instantiable n = false := by
  cases o with
  | none => simp [gst_element_factory_make]
  | some n =>
    by_cases hn : host.instantiable n = true
    · simp [gst_element_factory_make, hn]
    · simp only [Bool.not_eq_true] at hn
      simp [gst_element_factory_make, hn]

theorem factory_make_eq_some (host : Host) (o : Option String) (e : GstElement)
    (h : gst_element_factory_make host o = some e) :
    e.factory_name ∈ o.toList ∧ host.instantiable e.factory_name = true := by
  cases o with
  | none => simp [gst_element_factory_make] at h
  | some n =>
    by_cases hn : host.instantiable n = true
    · simp only [gst_element_factory_make, hn, if_true, Option.some.injEq] at h
      subst h
      simp [hn]
    · simp only [Bool.not_eq_true] at hn
      simp [gst_element_factory_make, hn] at h

theorem sync_bindings_factory_name (v : Nat) (bs : List GBinding) :
    ∀ e : GstElement, (sync_bindings v e bs).factory_name = e.factory_name := by
  induction bs with
  | nil => intro e; rfl
  | cons b rest ih => intro e; simp [sync_bindings, ih, element_set]

theorem payload_set_bitrate_factory_name (p : OwrPayload) (enc : Encoder) (v : Nat) :
    (payload_set_bitrate p enc v).1.element.factory_name = enc.element.factory_name := by
  unfold payload_set_bitrate
  simp only
  split
  · exact sync_bindings_factory_name _ _ _
  · rfl

theorem tune_h264_factory_name (plat : Platform) (p : OwrPayload) (e : GstElement) :
    (tune_h264 plat p e).element.factory_name = e.factory_name := by
  unfold tune_h264
  simp only
  split_ifs <;> simp [bind_bitrate, Encoder.set, element_set]

theorem tune_vp8_factory_name (plat : Platform) (p : OwrPayload) (e : GstElement) :
    (tune_vp8 plat p e).element.factory_name = e.factory_name := by
  simp [tune_vp8, bind_bitrate, element_set]

theorem tune_vp9_factory_name (p : OwrPayload) (e : GstElement) :
    (tune_vp9 p e).element.factory_name = e.factory_name := by
  simp [tune_vp9, bind_bitrate, element_set]

theorem create_encoder_eq_none_iff (host : Host) (plat : Platform)
    (oor : gdouble → Nat) (p : OwrPayload) :
    (_owr_payload_create_encoder host plat oor p).1 = none ↔
      ∀ n ∈ encoder_candidates host p.priv.codec_type, host.instantiable n = false := by
  unfold _owr_payload_create_encoder encoder_candidates
  cases hc : p.priv.codec_type
  case H264 =>
    simp only
    rw [← try_codecs_eq_none]
    cases _owr_try_codecs host host.detected_h264_encoders <;> simp
  case VP8 =>
    simp only
    rw [← try_codecs_eq_none]
    cases _owr_try_codecs host host.detected_vp8_encoders <;> simp
  case VP9 =>
    simp only
    rw [← try_codecs_eq_none]
    cases _owr_try_codecs host host.detected_vp9_encoders <;> simp
  all_goals
    simp only
    rw [← factory_make_eq_none]
    cases gst_element_factory_make host (host.encoder_name _) <;> simp

theorem create_encoder_none_payload (host : Host) (plat : Platform)
    (oor : gdouble → Nat) (p : OwrPayload)
    (h : (_owr_payload_create_encoder host plat oor p).1 = none) :
    (_owr_payload_create_encoder host plat oor p).2 = p := by
  unfold _owr_payload_create_encoder at h ⊢
  cases hc : p.priv.codec_type
  case H264 =>
    rw [hc] at h
    simp only at h ⊢
    cases ht : _owr_try_codecs host host.detected_h264_encoders with
    | none => rfl
    | some e => rw [ht] at h; simp at h
  case VP8 =>
    rw [hc] at h
    simp only at h ⊢
    cases ht : _owr_try_codecs host host.detected_vp8_encoders with
    | none => rfl
    | some e => rw [ht] at h; simp at h
  case VP9 =>
    rw [hc] at h
    simp only at h ⊢
    cases ht : _owr_try_codecs host host.detected_vp9_encoders with
    | none => rfl
    | some e => rw [ht] at h; simp at h
  all_goals
    simp only
    cases gst_element_factory_make host (host.encoder_name _) <;> rfl

theorem create_encoder_some_factory (host : Host) (plat : Platform)
    (oor : gdouble → Nat) (p : OwrPayload) (enc : Encoder)
    (h : (_owr_payload_create_encoder host plat oor p).1 = some enc) :
    enc.element.factory_name ∈ encoder_candidates host p.priv.codec_type ∧
      host.instantiable enc.element.factory_name = true := by
  unfold _owr_payload_create_encoder at h
  unfold encoder_candidates
  cases hc : p.priv.codec_type
  case H264 =>
    rw [hc] at h
    simp only at h ⊢
    cases ht : _owr_try_codecs host host.detected_h264_encoders with
    | none => rw [ht] at h; simp at h
    | some e =>
      rw [ht] at h
      simp only [Option.some.injEq] at h
      obtain ⟨h1, h2, _⟩ := try_codecs_eq_some host _ e ht
      rw [← h, payload_set_bitrate_factory_name, tune_h264_factory_name]
      exact ⟨h1, h2⟩
  case VP8 =>
    rw [hc] at h
    simp only at h ⊢
    cases ht : _owr_try_codecs host host.detected_vp8_encoders with
    | none => rw [ht] at h; simp at h
    | some e =>
      rw [ht] at h
      simp only [Option.some.injEq] at h
      obtain ⟨h1, h2, _⟩ := try_codecs_eq_some host _ e ht
      rw [← h, payload_set_bitrate_factory_name, tune_vp8_factory_name]
      exact ⟨h1, h2⟩
  case VP9 =>
    rw [hc] at h
    simp only at h ⊢
    cases ht : _owr_try_codecs host host.detected_vp9_encoders with
    | none => rw [ht] at h; simp at h
    | some e =>
      rw [ht] at h
      simp only [Option.some.injEq] at h
      obtain ⟨h1, h2, _⟩ := try_codecs_eq_some host _ e ht
      rw [← h, payload_set_bitrate_factory_name, tune_vp9_factory_name]
      exact ⟨h1, h2⟩
  all_goals
    rw [hc] at h
    simp only at h ⊢
    cases ht : gst_element_factory_make host (host.encoder_name _) with
    | none => rw [ht] at h; simp at h
    | some e =>
      rw [ht] at h
      simp only [Option.some.injEq] at h
      have := factory_make_eq_some host _ e ht
      rw [← h]
      exact this

/-- Claim C8: when no candidate encoder of the payload's codec can be
instantiated, `_owr_payload_create_encoder` returns no encoder and the
payload exactly as it was; it returns no encoder only in that case; and an
encoder it does return is made from a working candidate of the payload's
own codec. -/
theorem C8_no_encoder_available (host : Host) (plat : Platform)
    (oor : gdouble → Nat) (p : OwrPayload) :
    ((∀ n ∈ encoder_candidates host p.priv.codec_type, host.instantiable n = false) →
      _owr_payload_create_encoder host plat oor p = (none, p)) ∧
    ((_owr_payload_create_encoder host plat oor p).1 = none →
      ∀ n ∈ encoder_candidates host p.priv.codec_type, host.instantiable n = false) ∧
    (∀ enc : Encoder, (_owr_payload_create_encoder host plat oor p).1 = some enc →
      enc.element.factory_name ∈ encoder_candidates host p.priv.codec_type ∧
        host.instantiable enc.element.factory_name = true) := by
  refine ⟨?_, ?_, ?_⟩
  · intro h
    have h1 := (create_encoder_eq_none_iff host plat oor p).mpr h
    have h2 := create_encoder_none_payload host plat oor p h1
    exact Prod.ext h1 h2
  · exact (create_encoder_eq_none_iff host plat oor p).mp
  · intro enc h
    exact create_encoder_some_factory host plat oor p enc h

/-- Witness of C8: the example host detects no VP9 encoder, and a VP9
payload with no bitrate configured comes back unchanged and without an
encoder. -/
theorem C8_no_encoder_available_witness :
    _owr_payload_create_encoder example_host example_platform (fun _ => 0)
        { example_payload with priv := { example_payload.priv with codec_type := .VP9 } } =
      (none,
        { example_payload with priv := { example_payload.priv with codec_type := .VP9 } }) :=
  (C8_no_encoder_available example_host example_platform (fun _ => 0)
    { example_payload with priv := { example_payload.priv with codec_type := .VP9 } }).1
    (by intro n hn; simp [encoder_candidates, example_host, example_payload] at hn)

/-! ## Codec support -/

theorem encoder_probe_isSome (host : Host) (l : List String) :
    (_owr_try_codecs host l).isSome = true ↔ ∃ n ∈ l, host.instantiable n = true := by
  rw [← not_iff_not]
  simp only [Bool.not_eq_true, Option.not_isSome, Option.isNone_iff_eq_none,
    try_codecs_eq_none, not_exists, not_and]

theorem factory_make_isSome (host : Host) (o : Option String) :
    (gst_element_factory_make host o).isSome = true ↔
      ∃ n, o = some n ∧ host.instantiable n = true := by
  cases o with
  | none => simp [gst_element_factory_make]
  | some n =>
    by_cases hn : host.instantiable n = true
    · simp [gst_element_factory_make, hn]
    · simp only [Bool.not_eq_true] at hn
      simp [gst_element_factory_make, hn]

theorem probes_released (d e : Option GstElement) :
    (match d with
      | some d1 =>
          gst_object_unref
            (match e with
              | some e1 => gst_object_unref (d.toList ++ e.toList) e1
              | none => d.toList ++ e.toList) d1
      | none =>
          (match e with
            | some e1 => gst_object_unref (d.toList ++ e.toList) e1
            | none => d.toList ++ e.toList)) = [] := by
  cases d with
  | none =>
    cases e with
    | none => rfl
    | some e1 => simp [gst_object_unref]
  | some d1 =>
    cases e with
    | none => simp [gst_object_unref]
    | some e1 =>
      by_cases hde : d1 = e1
      · subst hde
        simp [gst_object_unref]
      · simp [gst_object_unref, List.erase_cons, hde]

/-- Claim C9: `owr_payload_supported` returns true exactly when some
candidate encoder of the codec and the decoder of the codec can both be
instantiated, and it holds no probe instance when it returns. -/
theorem C9_supported_iff_encoder_and_decoder (host : Host) (codec_type : OwrCodecType) :
    ((owr_payload_supported host codec_type).1 = true ↔
      (∃ n ∈ encoder_candidates host codec_type, host.instantiable n = true) ∧
      (∃ d, host.decoder_name codec_type = some d ∧ host.instantiable d = true)) ∧
    ((owr_payload_supported host codec_type).1 = false ↔
      (∀ n ∈ encoder_candidates host codec_type, host.instantiable n = false) ∨
      (∀ d, host.decoder_name codec_type = some d → host.instantiable d = false)) ∧
    (owr_payload_supported host codec_type).2 = [] := by
  have key : (owr_payload_supported host codec_type).1 = true ↔
      (∃ n ∈ encoder_candidates host codec_type, host.instantiable n = true) ∧
      (∃ d, host.decoder_name codec_type = some d ∧ host.instantiable d = true) := by
    unfold owr_payload_supported encoder_candidates _owr_create_decoder
    cases codec_type <;>
      simp only [Bool.and_eq_true, encoder_probe_isSome, factory_make_isSome,
        Option.mem_toList, Option.mem_def]
  refine ⟨key, ?_, ?_⟩
  · rw [← Bool.not_eq_true, key]
    constructor
    · intro h
      by_contra hcon
      push_neg at hcon
      obtain ⟨⟨n, hn, hi⟩, ⟨d, hd, hdi⟩⟩ := hcon
      simp only [Bool.not_eq_false] at hi hdi
      exact h ⟨⟨n, hn, hi⟩, ⟨d, hd, hdi⟩⟩
    · rintro (h | h) ⟨⟨n, hn, hi⟩, ⟨d, hd, hdi⟩⟩
      · rw [h n hn] at hi
        exact Bool.false_ne_true hi
      · rw [h d hd] at hdi
        exact Bool.false_ne_true hdi
  · unfold owr_payload_supported
    exact probes_released _ _

/-! ## Encoded descriptor -/

/-- Claim C10: `_owr_payload_create_encoded_caps` returns, for H264, the two
alternatives `video/x-h264` with profile "baseline" and then `video/x-h264`
with profile "constrained-baseline"; for VP8 the single alternative
`video/x-vp8`; for VP9 the single alternative `video/x-vp9`; and for None,
PCMU, PCMA and Opus the "any" descriptor. -/
theorem C10_encoded_caps_per_codec (p : OwrPayload) :
    _owr_payload_create_encoded_caps p =
      (match p.priv.codec_type with
        | .H264 => GstCaps.structures
            [{ name := "video/x-h264", fields := [("profile", .string "baseline")],
               features_any := false },
             { name := "video/x-h264",
               fields := [("profile", .string "constrained-baseline")],
               features_any := false }]
        | .VP8 => GstCaps.structures
            [{ name := "video/x-vp8", fields := [], features_any := false }]
        | .VP9 => GstCaps.structures
            [{ name := "video/x-vp9", fields := [], features_any := false }]
        | .NONE => GstCaps.any
        | .PCMU => GstCaps.any
        | .PCMA => GstCaps.any
        | .OPUS => GstCaps.any) := by
  unfold _owr_payload_create_encoded_caps
  cases p.priv.codec_type <;> rfl

/-! ## Video renderer: the stages a build adds -/

theorem gst_bin_add_eq_append (c : List Stage) (e : Option Stage) :
    ∃ t, gst_bin_add c e = c ++ t ∧ ∀ s ∈ t, e = some s := by
  cases e with
  | none => exact ⟨[], by simp [gst_bin_add], by simp⟩
  | some s =>
    unfold gst_bin_add
    simp only
    split
    · exact ⟨[], by simp, by simp⟩
    · exact ⟨[s], rfl, by simp⟩

theorem gst_bin_add_toList (children : List Stage) (e : Option Stage)
    (h : ∀ s, e = some s → ∀ c ∈ children, c.name = none ∨ c.name ≠ s.name) :
    gst_bin_add children e = children ++ e.toList := by
  cases e with
  | none => simp [gst_bin_add]
  | some s =>
    have hs := h s rfl
    unfold gst_bin_add
    simp only
    rw [if_neg]
    · rfl
    · simp only [List.any_eq_true, Bool.and_eq_true, beq_iff_eq, not_exists, not_and]
      intro c hc hsome hEq
      rcases hs c hc with h1 | h1
      · rw [h1] at hsome
        simp at hsome
      · exact h1 hEq

theorem make_stage_factory (env : RenderEnv) (id : Nat) (name : Option String) (f : String) :
    make_stage env id name (gst_element_factory_make env.host (some f)) =
      if env.host.instantiable f = true then
        some { id := id, name := name, element := { factory_name := f, props := [] },
               channels := env.color_balance_channels f, inner := env.sink_inner f,
               window_handle := none }
      else none := by
  unfold gst_element_factory_make
  simp only
  split <;> simp_all [make_stage]

theorem make_stage_some (env : RenderEnv) (id : Nat) (name : Option String)
    (o : Option String) (s : Stage)
    (h : make_stage env id name (gst_element_factory_make env.host o) = some s) :
    s.name = name ∧ s.id = id ∧ o = some s.element.factory_name ∧
      env.host.instantiable s.element.factory_name = true ∧ s.window_handle = none := by
  cases o with
  | none => simp [gst_element_factory_make, make_stage] at h
  | some f =>
    rw [make_stage_factory] at h
    split at h
    · rename_i hi
      simp only [Option.some.injEq] at h
      rw [← h]
      exact ⟨rfl, rfl, rfl, hi, rfl⟩
    · exact absurd h (by simp)

theorem make_stage_isSome (env : RenderEnv) (id : Nat) (name : Option String) (f : String) :
    (make_stage env id name (gst_element_factory_make env.host (some f))).isSome =
      env.host.instantiable f := by
  rw [make_stage_factory]
  cases env.host.instantiable f <;> simp

theorem renderer_disabled_fst (d : Bool) (b : Option Stage) (sb : List Stage) (s : Stage)
    (h : (renderer_disabled d b sb).1 = some s) :
    ∃ b0, b = some b0 ∧ s.name = b0.name ∧ s.id = b0.id ∧ s.element = b0.element ∧
      s.window_handle = b0.window_handle := by
  cases b with
  | none => simp [renderer_disabled] at h
  | some b0 =>
    refine ⟨b0, rfl, ?_⟩
    unfold renderer_disabled at h
    simp only at h
    split at h
    · simp only [Option.some.injEq] at h
      rw [← h]
      exact ⟨rfl, rfl, rfl, rfl⟩
    · simp only [Option.some.injEq] at h
      rw [← h]
      exact ⟨rfl, rfl, rfl, rfl⟩

theorem renderer_disabled_fst_isSome (d : Bool) (b : Option Stage) (sb : List Stage) :
    (renderer_disabled d b sb).1.isSome = b.isSome := by
  cases b with
  | none => simp [renderer_disabled]
  | some b0 =>
    unfold renderer_disabled
    simp only
    split <;> simp

theorem disable_last_sample_on_stage_keeps (s : Stage) :
    (disable_last_sample_on_stage s).name = s.name ∧
    (disable_last_sample_on_stage s).id = s.id ∧
    (disable_last_sample_on_stage s).element.factory_name = s.element.factory_name ∧
    (disable_last_sample_on_stage s).window_handle = s.window_handle := by
  unfold disable_last_sample_on_stage
  split <;> simp [element_set]

/-- The stages `owr_video_renderer_reconfigure_element` puts into an empty
bin, in order, with the names and factories they have and the conditions
under which each optional one is there. -/
theorem reconfigure_stages_fresh (env : RenderEnv) (r : OwrVideoRenderer) (bin : GstBin)
    (built : BuiltStages) (hfresh : bin.children = [])
    (h : reconfigure_stages env r bin = some built) :
    ∃ (parser decoder upload convert balance flip : Option Stage) (sink : Stage),
      built.children = parser.toList ++ decoder.toList ++ upload.toList ++
        convert.toList ++ balance.toList ++ flip.toList ++ [sink] ∧
      (∀ s, parser = some s → s.name = none ∧
        env.codec_type_is_raw r.source.codec_type = false ∧
        env.parser_name r.source.codec_type = some s.element.factory_name) ∧
      (∀ s, decoder = some s → s.name = none ∧
        env.codec_type_is_raw r.source.codec_type = false ∧
        env.host.decoder_name r.source.codec_type = some s.element.factory_name) ∧
      upload.isSome = env.host.instantiable "glupload" ∧
      (∀ s, upload = some s → s.name = some "video-renderer-upload" ∧
        s.element.factory_name = "glupload") ∧
      convert.isSome = (!r.source.supports_color_balance &&
        env.host.instantiable "glcolorbalance" && env.host.instantiable "glcolorconvert") ∧
      (∀ s, convert = some s → s.name = some "video-renderer-convert" ∧
        s.element.factory_name = "glcolorconvert") ∧
      balance.isSome = (!r.source.supports_color_balance &&
        env.host.instantiable "glcolorbalance" && env.host.instantiable "glcolorconvert") ∧
      (∀ s, balance = some s → s.name = some "video-renderer-balance" ∧
        s.element.factory_name = "glcolorbalance") ∧
      flip.isSome = (!r.source.supports_video_orientation &&
        env.host.instantiable "glvideoflip") ∧
      (∀ s, flip = some s → s.name = some "video-renderer-flip" ∧
        s.element.factory_name = "glvideoflip") ∧
      sink.name = some "video-renderer-sink" ∧ sink.element.factory_name = VIDEO_SINK := by
  unfold reconfigure_stages at h
  lift_lets at h
  extract_lets source codec_type not_raw parser n1 decoder n2 c1 c2 upload n3 c3 balance n4
    convert n5 driven c4 flip n6 method flipped c5 at h
  -- the elements the locals hold
  have hparser : ∀ s, parser = some s → s.name = none ∧
      env.codec_type_is_raw r.source.codec_type = false ∧
      env.parser_name r.source.codec_type = some s.element.factory_name := by
    intro s hs
    simp only [parser, not_raw, codec_type, source, _owr_create_parser_element] at hs
    split at hs
    · rename_i hraw
      obtain ⟨a, _, c, _, _⟩ := make_stage_some _ _ _ _ _ hs
      exact ⟨a, by simpa using hraw, c⟩
    · exact absurd hs (by simp)
  have hdecoder : ∀ s, decoder = some s → s.name = none ∧
      env.codec_type_is_raw r.source.codec_type = false ∧
      env.host.decoder_name r.source.codec_type = some s.element.factory_name := by
    intro s hs
    simp only [decoder, not_raw, codec_type, source, _owr_create_decoder] at hs
    split at hs
    · rename_i hraw
      obtain ⟨a, _, c, _, _⟩ := make_stage_some _ _ _ _ _ hs
      exact ⟨a, by simpa using hraw, c⟩
    · exact absurd hs (by simp)
  have hupload : ∀ s, upload = some s → s.name = some "video-renderer-upload" ∧
      s.element.factory_name = "glupload" := by
    intro s hs
    obtain ⟨a, _, c, _, _⟩ := make_stage_some _ _ _ _ _ hs
    exact ⟨a, (Option.some.inj c).symm⟩
  have hupload_some : upload.isSome = env.host.instantiable "glupload" :=
    make_stage_isSome _ _ _ _
  have hbalance : ∀ s, balance = some s → s.name = some "video-renderer-balance" ∧
      s.element.factory_name = "glcolorbalance" := by
    intro s hs
    simp only [balance] at hs
    split at hs
    · obtain ⟨a, _, c, _, _⟩ := make_stage_some _ _ _ _ _ hs
      exact ⟨a, (Option.some.inj c).symm⟩
    · exact absurd hs (by simp)
  have hbalance_some : balance.isSome = (!r.source.supports_color_balance &&
      env.host.instantiable "glcolorbalance") := by
    simp only [balance, source]
    cases r.source.supports_color_balance
    · simp [make_stage_isSome]
    · simp
  have hconvert : ∀ s, convert = some s → s.name = some "video-renderer-convert" ∧
      s.element.factory_name = "glcolorconvert" := by
    intro s hs
    simp only [convert] at hs
    split at hs
    · obtain ⟨a, _, c, _, _⟩ := make_stage_some _ _ _ _ _ hs
      exact ⟨a, (Option.some.inj c).symm⟩
    · exact absurd hs (by simp)
  have hconvert_some : convert.isSome = (!r.source.supports_color_balance &&
      env.host.instantiable "glcolorbalance" && env.host.instantiable "glcolorconvert") := by
    rw [← hbalance_some]
    simp only [convert]
    cases balance.isSome
    · simp
    · simp [make_stage_isSome]
  have hflip : ∀ s, flipped = some s → s.name = some "video-renderer-flip" ∧
      s.element.factory_name = "glvideoflip" := by
    intro s hs
    simp only [flipped, Option.map_eq_some'] at hs
    obtain ⟨f, hf, hfs⟩ := hs
    simp only [flip] at hf
    split at hf
    · obtain ⟨a, _, c, _, _⟩ := make_stage_some _ _ _ _ _ hf
      rw [← hfs]
      exact ⟨a, (Option.some.inj c).symm⟩
    · exact absurd hf (by simp)
  have hflip_some : flipped.isSome = (!r.source.supports_video_orientation &&
      env.host.instantiable "glvideoflip") := by
    simp only [flipped, flip, source, Option.isSome_map']
    cases r.source.supports_video_orientation
    · simp [make_stage_isSome]
    · simp
  -- the balance element as it is added
  have hdriven : ∀ s, (if convert.isSome then driven.1 else none) = some s →
      s.name = some "video-renderer-balance" ∧ s.element.factory_name = "glcolorbalance" := by
    intro s hs
    cases hc : convert.isSome
    · rw [hc] at hs
      simp at hs
    · rw [hc] at hs
      simp only [if_true] at hs
      simp only [driven, hc, if_true] at hs
      obtain ⟨b0, hb0, hn, _, he, _⟩ := renderer_disabled_fst _ _ _ _ hs
      obtain ⟨h1, h2⟩ := hbalance b0 hb0
      exact ⟨hn.trans h1, by rw [he]; exact h2⟩
  have hdriven_some : (if convert.isSome then driven.1 else none).isSome =
      (!r.source.supports_color_balance &&
        env.host.instantiable "glcolorbalance" && env.host.instantiable "glcolorconvert") := by
    rw [← hconvert_some]
    cases hc : convert.isSome
    · simp
    · simp only [if_true, driven, hc]
      rw [renderer_disabled_fst_isSome]
      have h1 := hconvert_some
      rw [← hbalance_some, hc] at h1
      cases hb : balance.isSome
      · rw [hb] at h1
        simp at h1
      · rfl
  -- the sink
  split at h
  · exact absurd h (by simp)
  rename_i sink hsink
  simp only [Option.some.injEq] at h
  obtain ⟨hs1, _, hs2, _, _⟩ := make_stage_some _ _ _ _ _ hsink
  obtain ⟨hk1, _, hk2, _⟩ := disable_last_sample_on_stage_keeps sink
  -- the elements of the bin, step by step
  have e1 : c1 = parser.toList := by
    simp only [c1, hfresh]
    rw [gst_bin_add_toList]
    · simp
    · intro s _ c hc
      simp at hc
  have e2 : c2 = parser.toList ++ decoder.toList := by
    simp only [c2, e1]
    rw [gst_bin_add_toList]
    intro s _ c hc
    left
    exact (hparser c (by simpa using hc)).1
  have e3 : c3 = parser.toList ++ decoder.toList ++ upload.toList := by
    simp only [c3, e2]
    rw [gst_bin_add_toList]
    intro s _ c hc
    left
    rcases List.mem_append.mp hc with hc | hc
    · exact (hparser c (by simpa using hc)).1
    · exact (hdecoder c (by simpa using hc)).1
  have n3names : ∀ c ∈ c3, c.name = none ∨ c.name = some "video-renderer-upload" := by
    intro c hc
    rw [e3] at hc
    rcases List.mem_append.mp hc with hc | hc
    · rcases List.mem_append.mp hc with hc | hc
      · exact Or.inl (hparser c (by simpa using hc)).1
      · exact Or.inl (hdecoder c (by simpa using hc)).1
    · exact Or.inr (hupload c (by simpa using hc)).1
  have e4 : c4 = c3 ++ convert.toList ++ (if convert.isSome then driven.1 else none).toList := by
    cases hc : convert with
    | none => simp [c4, hc]
    | some cv =>
      have hcv := (hconvert cv hc).1
      simp only [c4, hc, Option.isSome_some, if_true]
      rw [gst_bin_add_toList c3 (some cv), gst_bin_add_toList]
      · intro s hs c hcm
        have hsn : s.name = some "video-renderer-balance" := by
          apply (hdriven s _).1
          rw [hc]
          simpa using hs
        rw [hsn]
        rcases List.mem_append.mp hcm with hcm | hcm
        · rcases n3names c hcm with h1 | h1
          · exact Or.inl h1
          · right
            rw [h1]
            decide
        · right
          have : c = cv := by simpa using hcm
          rw [this, hcv]
          decide
      · intro s hs c hcm
        have : s = cv := by simpa using hs.symm
        rw [this, hcv]
        rcases n3names c hcm with h1 | h1
        · exact Or.inl h1
        · right
          rw [h1]
          decide
  have n4names : ∀ c ∈ c4, c.name = none ∨ c.name = some "video-renderer-upload" ∨
      c.name = some "video-renderer-convert" ∨ c.name = some "video-renderer-balance" := by
    intro c hc
    rw [e4] at hc
    rcases List.mem_append.mp hc with hc | hc
    · rcases List.mem_append.mp hc with hc | hc
      · rcases n3names c hc with h1 | h1
        · exact Or.inl h1
        · exact Or.inr (Or.inl h1)
      · exact Or.inr (Or.inr (Or.inl (hconvert c (by simpa using hc)).1))
    · exact Or.inr (Or.inr (Or.inr (hdriven c (by simpa using hc)).1))
  have e5 : c5 = c4 ++ flipped.toList := by
    simp only [c5]
    rw [gst_bin_add_toList]
    intro s hs c hc
    rw [(hflip s hs).1]
    rcases n4names c hc with h1 | h1 | h1 | h1
    · exact Or.inl h1
    all_goals
      right
      rw [h1]
      decide
  have e6 : gst_bin_add c5 (some (disable_last_sample_on_stage sink)) =
      c5 ++ [disable_last_sample_on_stage sink] := by
    rw [gst_bin_add_toList]
    · rfl
    intro s hs c hc
    have : s = disable_last_sample_on_stage sink := by simpa using hs.symm
    rw [this, hk1, hs1]
    rw [e5] at hc
    rcases List.mem_append.mp hc with hc | hc
    · rcases n4names c hc with h1 | h1 | h1 | h1
      · exact Or.inl h1
      all_goals
        right
        rw [h1]
        decide
    · right
      rw [(hflip c (by simpa using hc)).1]
      decide
  refine ⟨parser, decoder, upload, convert, (if convert.isSome then driven.1 else none),
    flipped, disable_last_sample_on_stage sink, ?_, hparser, hdecoder, hupload_some, hupload,
    hconvert_some, hconvert, hdriven_some, hdriven, hflip_some, hflip, ?_, ?_⟩
  · rw [← h]
    simp only
    rw [e6, e5, e4, e3]
  · rw [hk1, hs1]
  · rw [hk2]
    exact (Option.some.inj hs2).symm

/-- What `owr_video_renderer_reconfigure_element` adds to a bin with any
content: the earlier elements stay, and every element added has one of the
names the function gives, the names of the software stages only when the
source lacks the hardware capability. -/
theorem reconfigure_stages_added (env : RenderEnv) (r : OwrVideoRenderer) (bin : GstBin)
    (built : BuiltStages) (h : reconfigure_stages env r bin = some built) :
    ∃ added, built.children = bin.children ++ added ∧
      ∀ s ∈ added,
        s.name = none ∨ s.name = some "video-renderer-upload" ∨
        (r.source.supports_color_balance = false ∧
          (s.name = some "video-renderer-convert" ∨
            s.name = some "video-renderer-balance")) ∨
        (r.source.supports_video_orientation = false ∧
          s.name = some "video-renderer-flip") ∨
        s.name = some "video-renderer-sink" := by
  unfold reconfigure_stages at h
  lift_lets at h
  extract_lets source codec_type not_raw parser n1 decoder n2 c1 c2 upload n3 c3 balance n4
    convert n5 driven c4 flip n6 method flipped c5 at h
  have hparser : ∀ s, parser = some s → s.name = none := by
    intro s hs
    simp only [parser, _owr_create_parser_element] at hs
    split at hs
    · exact (make_stage_some _ _ _ _ _ hs).1
    · exact absurd hs (by simp)
  have hdecoder : ∀ s, decoder = some s → s.name = none := by
    intro s hs
    simp only [decoder, _owr_create_decoder] at hs
    split at hs
    · exact (make_stage_some _ _ _ _ _ hs).1
    · exact absurd hs (by simp)
  have hupload : ∀ s, upload = some s → s.name = some "video-renderer-upload" :=
    fun s hs => (make_stage_some _ _ _ _ _ hs).1
  have hbalance : ∀ s, balance = some s →
      r.source.supports_color_balance = false ∧ s.name = some "video-renderer-balance" := by
    intro s hs
    simp only [balance, source] at hs
    split at hs
    · rename_i hcb
      exact ⟨by simpa using hcb, (make_stage_some _ _ _ _ _ hs).1⟩
    · exact absurd hs (by simp)
  have hconvert : ∀ s, convert = some s →
      r.source.supports_color_balance = false ∧ s.name = some "video-renderer-convert" := by
    intro s hs
    simp only [convert] at hs
    split at hs
    · rename_i hbs
      obtain ⟨b, hb⟩ := Option.isSome_iff_exists.mp hbs
      exact ⟨(hbalance b hb).1, (make_stage_some _ _ _ _ _ hs).1⟩
    · exact absurd hs (by simp)
  have hflip : ∀ s, flipped = some s →
      r.source.supports_video_orientation = false ∧ s.name = some "video-renderer-flip" := by
    intro s hs
    simp only [flipped, Option.map_eq_some'] at hs
    obtain ⟨f, hf, hfs⟩ := hs
    simp only [flip, source] at hf
    split at hf
    · rename_i hvo
      rw [← hfs]
      exact ⟨by simpa using hvo, (make_stage_some _ _ _ _ _ hf).1⟩
    · exact absurd hf (by simp)
  split at h
  · exact absurd h (by simp)
  rename_i sink hsink
  simp only [Option.some.injEq] at h
  have hsinkname : (disable_last_sample_on_stage sink).name = some "video-renderer-sink" := by
    rw [(disable_last_sample_on_stage_keeps sink).1]
    exact (make_stage_some _ _ _ _ _ hsink).1
  obtain ⟨t1, e1, m1⟩ := gst_bin_add_eq_append bin.children parser
  obtain ⟨t2, e2, m2⟩ := gst_bin_add_eq_append c1 decoder
  obtain ⟨t3, e3, m3⟩ := gst_bin_add_eq_append c2 upload
  obtain ⟨t4, e4, m4⟩ := gst_bin_add_eq_append c3 convert
  obtain ⟨t5, e5, m5⟩ := gst_bin_add_eq_append (gst_bin_add c3 convert) driven.1
  obtain ⟨t6, e6, m6⟩ := gst_bin_add_eq_append c4 flipped
  obtain ⟨t7, e7, m7⟩ :=
    gst_bin_add_eq_append c5 (some (disable_last_sample_on_stage sink))
  have hdriven : ∀ s, convert.isSome = true → driven.1 = some s →
      r.source.supports_color_balance = false ∧ s.name = some "video-renderer-balance" := by
    intro s hc hs
    simp only [driven, hc, if_true] at hs
    obtain ⟨b0, hb0, hn, _⟩ := renderer_disabled_fst _ _ _ _ hs
    exact ⟨(hbalance b0 hb0).1, hn.trans (hbalance b0 hb0).2⟩
  have e45 : ∃ t, c4 = c3 ++ t ∧ ∀ s ∈ t,
      r.source.supports_color_balance = false ∧
        (s.name = some "video-renderer-convert" ∨ s.name = some "video-renderer-balance") := by
    cases hc : convert.isSome
    · exact ⟨[], by simp [c4, hc], by simp⟩
    · refine ⟨t4 ++ t5, ?_, ?_⟩
      · simp only [c4, hc, if_true]
        rw [e5, e4, List.append_assoc]
      · intro s hs
        rcases List.mem_append.mp hs with hs | hs
        · exact ⟨(hconvert s (m4 s hs)).1, Or.inl (hconvert s (m4 s hs)).2⟩
        · exact ⟨(hdriven s hc (m5 s hs)).1, Or.inr (hdriven s hc (m5 s hs)).2⟩
  obtain ⟨t45, e45, m45⟩ := e45
  refine ⟨t1 ++ t2 ++ t3 ++ t45 ++ t6 ++ t7, ?_, ?_⟩
  · rw [← h]
    simp only
    rw [e7]
    simp only [c5]
    rw [e6, e45]
    simp only [c3]
    rw [e3]
    simp only [c2]
    rw [e2]
    simp only [c1]
    rw [e1]
    simp only [List.append_assoc]
  · intro s hs
    simp only [List.mem_append] at hs
    rcases hs with ((((hs | hs) | hs) | hs) | hs) | hs
    · exact Or.inl (hparser s (m1 s hs))
    · exact Or.inl (hdecoder s (m2 s hs))
    · exact Or.inr (Or.inl (hupload s (m3 s hs)))
    · exact Or.inr (Or.inr (Or.inl (m45 s hs)))
    · exact Or.inr (Or.inr (Or.inr (Or.inl (hflip s (m6 s hs)))))
    · have := m7 s hs
      simp only [Option.some.injEq] at this
      rw [← this]
      exact Or.inr (Or.inr (Or.inr (Or.inr hsinkname)))

theorem reconfigure_stages_isSome (env : RenderEnv) (r : OwrVideoRenderer) (bin : GstBin) :
    (reconfigure_stages env r bin).isSome = env.host.instantiable VIDEO_SINK := by
  unfold reconfigure_stages
  lift_lets
  extract_lets source codec_type not_raw parser n1 decoder n2 c1 c2 upload n3 c3 balance n4
    convert n5 driven c4 flip n6 method flipped c5
  have := make_stage_isSome env n6 (some "video-renderer-sink") VIDEO_SINK
  unfold owr_video_renderer_get_sink
  cases hs : make_stage env n6 (some "video-renderer-sink")
      (gst_element_factory_make env.host (some VIDEO_SINK)) with
  | none => rw [hs] at this; simpa using this
  | some s => rw [hs] at this; simpa using this

theorem reconfigure_stages_ne_nil (env : RenderEnv) (r : OwrVideoRenderer) (bin : GstBin)
    (built : BuiltStages) (h : reconfigure_stages env r bin = some built) :
    built.children ≠ [] := by
  unfold reconfigure_stages at h
  lift_lets at h
  extract_lets source codec_type not_raw parser n1 decoder n2 c1 c2 upload n3 c3 balance n4
    convert n5 driven c4 flip n6 method flipped c5 at h
  split at h
  · exact absurd h (by simp)
  rename_i sink hsink
  simp only [Option.some.injEq] at h
  rw [← h]
  simp only
  unfold gst_bin_add
  simp only
  split
  · rename_i hany
    intro hnil
    rw [hnil] at hany
    simp at hany
  · simp

/-- The result of `owr_video_renderer_reconfigure_element` in terms of the
stages built and of the outcome of the link step. -/
theorem reconfigure_element_eq (env : RenderEnv) (r : OwrVideoRenderer) (bin : GstBin)
    (built : BuiltStages) (hb : r.priv.renderer_bin = some bin)
    (hbuilt : reconfigure_stages env r bin = some built) :
    owr_video_renderer_reconfigure_element env r =
      match (env.link built.children).2 with
      | none => none
      | some first =>
        if env.has_sink_pad first then
          some { r with
            priv := { r.priv with
              renderer_bin := some { bin with
                children := built.children,
                ghost_pad := gst_element_add_pad bin.ghost_pad first.id } },
            source := { r.source with source_bin := built.source_bin },
            disabled_handlers := r.disabled_handlers ++ [built.balance_data],
            flip_handlers := r.flip_handlers ++ [built.flip_data, built.flip_data],
            next_id := built.next_id }
        else none := by
  unfold owr_video_renderer_reconfigure_element
  simp only [hb, hbuilt]

/-- When `owr_video_renderer_reconfigure_element` returns, the renderer had
a bin, the stages were built, and the new bin holds them. -/
theorem reconfigure_element_some (env : RenderEnv) (r r' : OwrVideoRenderer)
    (h : owr_video_renderer_reconfigure_element env r = some r') :
    ∃ bin built first, r.priv.renderer_bin = some bin ∧
      reconfigure_stages env r bin = some built ∧
      (env.link built.children).2 = some first ∧ env.has_sink_pad first = true ∧
      r'.priv.renderer_bin = some { bin with
        children := built.children,
        ghost_pad := gst_element_add_pad bin.ghost_pad first.id } ∧
      r'.disabled_handlers = r.disabled_handlers ++ [built.balance_data] ∧
      r'.sink = r.sink := by
  unfold owr_video_renderer_reconfigure_element at h
  split at h
  · exact absurd h (by simp)
  rename_i bin hb
  split at h
  · exact absurd h (by simp)
  rename_i built hbuilt
  split at h
  · exact absurd h (by simp)
  rename_i first hfirst
  split at h
  · rename_i hpad
    simp only [Option.some.injEq] at h
    refine ⟨bin, built, first, hb, hbuilt, hfirst, hpad, ?_, ?_, ?_⟩ <;> rw [← h]
  · exact absurd h (by simp)

/-- With a bin, a sink the host can make, and a link step that finds a first
stage with a pad "sink" in every bin that is not empty,
`owr_video_renderer_reconfigure_element` returns. -/
theorem reconfigure_element_returns (env : RenderEnv) (r : OwrVideoRenderer) (bin : GstBin)
    (hb : r.priv.renderer_bin = some bin)
    (hsink : env.host.instantiable VIDEO_SINK = true)
    (hlink : ∀ l, l ≠ [] → ∃ f, (env.link l).2 = some f ∧ env.has_sink_pad f = true) :
    ∃ r' built, owr_video_renderer_reconfigure_element env r = some r' ∧
      reconfigure_stages env r bin = some built ∧
      ∃ first : Stage, r'.priv.renderer_bin = some { bin with
        children := built.children,
        ghost_pad := gst_element_add_pad bin.ghost_pad first.id } := by
  have hs := reconfigure_stages_isSome env r bin
  rw [hsink] at hs
  obtain ⟨built, hbuilt⟩ := Option.isSome_iff_exists.mp hs
  obtain ⟨f, hf, hp⟩ := hlink built.children (reconfigure_stages_ne_nil env r bin built hbuilt)
  rw [reconfigure_element_eq env r bin built hb hbuilt]
  simp only [hf, hp, if_true]
  exact ⟨_, built, rfl, hbuilt, f, rfl⟩

theorem toList_map_name (o : Option Stage) (n : Option String)
    (h : ∀ s, o = some s → s.name = n) :
    (o.toList.map fun s => s.name) = if o.isSome then [n] else [] := by
  cases o with
  | none => rfl
  | some s => simp [h s rfl]

/-- The element names in a bin that was empty before
`owr_video_renderer_reconfigure_element` built into it. -/
theorem reconfigure_stages_fresh_names (env : RenderEnv) (r : OwrVideoRenderer) (bin : GstBin)
    (built : BuiltStages) (hfresh : bin.children = [])
    (h : reconfigure_stages env r bin = some built) :
    ∃ unnamed : List (Option String), (∀ n ∈ unnamed, n = none) ∧
      (built.children.map fun s => s.name) =
        unnamed ++
        (if env.host.instantiable "glupload" then [some "video-renderer-upload"] else []) ++
        (if (!r.source.supports_color_balance && env.host.instantiable "glcolorbalance" &&
            env.host.instantiable "glcolorconvert") then
          [some "video-renderer-convert", some "video-renderer-balance"] else []) ++
        (if (!r.source.supports_video_orientation && env.host.instantiable "glvideoflip") then
          [some "video-renderer-flip"] else []) ++
        [some "video-renderer-sink"] := by
  obtain ⟨parser, decoder, upload, convert, balance, flip, sink, hch, hp, hd, hus, hu, hcs, hc,
    hbs, hb, hfs, hf, hsn, _⟩ := reconfigure_stages_fresh env r bin built hfresh h
  refine ⟨(parser.toList.map fun s => s.name) ++ (decoder.toList.map fun s => s.name), ?_, ?_⟩
  · intro n hn
    rcases List.mem_append.mp hn with hn | hn
    · obtain ⟨s, hs, rfl⟩ := List.mem_map.mp hn
      exact (hp s (by simpa using hs)).1
    · obtain ⟨s, hs, rfl⟩ := List.mem_map.mp hn
      exact (hd s (by simpa using hs)).1
  · rw [hch]
    simp only [List.map_append, List.map_cons, List.map_nil, hsn]
    rw [toList_map_name upload _ (fun s hs => (hu s hs).1),
      toList_map_name convert _ (fun s hs => (hc s hs).1),
      toList_map_name balance _ (fun s hs => (hb s hs).1),
      toList_map_name flip _ (fun s hs => (hf s hs).1), hus, hcs, hbs, hfs]
    cases (!r.source.supports_color_balance && env.host.instantiable "glcolorbalance" &&
        env.host.instantiable "glcolorconvert") <;> simp

/-! ## Video renderer: the claims -/

/-- The stages one call of `owr_video_renderer_reconfigure_element` adds to
the bin include no colour-conversion and no colour-balance stage when the
source supports hardware colour balance, and no flip stage when the source
supports hardware orientation; a bin that was empty before the build then
contains none of them.  Stages that were in the bin before the call stay. -/
theorem reconfigure_element_adds_no_software_stage (env : RenderEnv)
    (r : OwrVideoRenderer) (bin : GstBin) (hb : r.priv.renderer_bin = some bin) :
    ∀ r', owr_video_renderer_reconfigure_element env r = some r' →
      ∃ bin' added, r'.priv.renderer_bin = some bin' ∧
        bin'.children = bin.children ++ added ∧
        (r.source.supports_color_balance = true →
          ∀ s ∈ added, s.name ≠ some "video-renderer-convert" ∧
            s.name ≠ some "video-renderer-balance") ∧
        (r.source.supports_video_orientation = true →
          ∀ s ∈ added, s.name ≠ some "video-renderer-flip") ∧
        (bin.children = [] → bin'.children = added) := by
  intro r' h
  obtain ⟨bin0, built, first, hb0, hbuilt, _, _, hr', _, _⟩ :=
    reconfigure_element_some env r r' h
  rw [hb] at hb0
  simp only [Option.some.injEq] at hb0
  subst hb0
  obtain ⟨added, hadd, hnames⟩ := reconfigure_stages_added env r bin built hbuilt
  refine ⟨_, added, hr', hadd, ?_, ?_, ?_⟩
  · intro hcb s hs
    rcases hnames s hs with h1 | h1 | ⟨h1, _⟩ | ⟨_, h1⟩ | h1
    · rw [h1]
      exact ⟨by simp, by simp⟩
    · rw [h1]
      exact ⟨by decide, by decide⟩
    · rw [hcb] at h1
      exact absurd h1 (by simp)
    · rw [h1]
      exact ⟨by decide, by decide⟩
    · rw [h1]
      exact ⟨by decide, by decide⟩
  · intro hvo s hs
    rcases hnames s hs with h1 | h1 | ⟨_, h1 | h1⟩ | ⟨h1, _⟩ | h1
    · rw [h1]
      simp
    · rw [h1]
      decide
    · rw [h1]
      decide
    · rw [h1]
      decide
    · rw [hvo] at h1
      exact absurd h1 (by simp)
    · rw [h1]
      decide
  · intro hnil
    simp only
    rw [hadd, hnil, List.nil_append]

/-- The build into an empty bin for a tagless renderer on a source that
delivers H264 and has both hardware capabilities. -/
theorem reconfigure_element_adds_no_software_stage_example :
    (owr_video_renderer_reconfigure_element example_render_env
      (owr_video_renderer_new none example_source_h264 0 0)).isSome = true ∧
    ∀ r', owr_video_renderer_reconfigure_element example_render_env
        (owr_video_renderer_new none example_source_h264 0 0) = some r' →
      ∃ bin' added, r'.priv.renderer_bin = some bin' ∧
        bin'.children = [] ++ added ∧
        (true = true →
          ∀ s ∈ added, s.name ≠ some "video-renderer-convert" ∧
            s.name ≠ some "video-renderer-balance") ∧
        (true = true →
          ∀ s ∈ added, s.name ≠ some "video-renderer-flip") ∧
        (([] : List Stage) = [] → bin'.children = added) :=
  ⟨rfl,
    reconfigure_element_adds_no_software_stage example_render_env
      (owr_video_renderer_new none example_source_h264 0 0)
      { bin_id := 0, children := [], ghost_pad := none } rfl⟩

/-- Claim C11 at its failing input: a tagless renderer is built on a raw
source without hardware capabilities, its source then becomes an H264 source
with both hardware capabilities, and the source-changed notification runs
`owr_video_renderer_reconfigure_element` again.  The source of the renderer
now supports hardware colour balance and hardware orientation, and the graph
still contains the conversion, balance and flip stages of the first build,
with the new parser and decoder behind the sink.  Built into a new bin, the
graph of that source has none of the three. -/
theorem C11_rebuild_keeps_software_stages :
    (((_owr_video_renderer_notify_source_changed example_render_env
        (owr_video_renderer_new none example_source 0 0)).bind fun r =>
      _owr_video_renderer_notify_source_changed example_render_env
        { r with source := example_source_h264 }).map fun r =>
      (r.source.supports_color_balance, r.source.supports_video_orientation,
        r.priv.renderer_bin.map fun b => b.children.map fun s => s.name)) =
      some (true, true,
        some [some "video-renderer-upload", some "video-renderer-convert",
          some "video-renderer-balance", some "video-renderer-flip",
          some "video-renderer-sink", none, none]) ∧
    ((owr_video_renderer_reconfigure_element example_render_env
        (owr_video_renderer_new none example_source_h264 0 0)).bind fun r =>
      r.priv.renderer_bin).map (fun b => b.children.map fun s => s.name) =
      some [none, none, some "video-renderer-upload", some "video-renderer-sink"] := by
  constructor <;> decide

/-- Claim C12 at its failing input: a tagless renderer on a raw source
without hardware capabilities gets a second source-changed notification.
The first build puts the instances 0, 2, 1, 3, 4 (upload, conversion,
balance, flip, sink) into the bin; after the second notification the bin
holds these same instances and none of the five made by the second build;
when the second notification comes with an H264 source that has both
hardware capabilities, the conversion, balance and flip stages of the
first build are still there and the new parser and decoder stand behind the
old sink. -/
theorem C12_second_notification_keeps_first_graph :
    ((_owr_video_renderer_notify_source_changed example_render_env
        (owr_video_renderer_new none example_source 0 0)).bind fun r =>
      r.priv.renderer_bin).map (fun b => b.children.map fun s => s.id) =
      some [0, 2, 1, 3, 4] ∧
    (((_owr_video_renderer_notify_source_changed example_render_env
        (owr_video_renderer_new none example_source 0 0)).bind
      (_owr_video_renderer_notify_source_changed example_render_env)).bind fun r =>
      r.priv.renderer_bin).map (fun b => b.children.map fun s => s.id) =
      some [0, 2, 1, 3, 4] ∧
    ((_owr_video_renderer_notify_source_changed example_render_env
        (owr_video_renderer_new none example_source 0 0)).bind
      (_owr_video_renderer_notify_source_changed example_render_env)).map
      (fun r => r.next_id) = some 10 ∧
    (((_owr_video_renderer_notify_source_changed example_render_env
        (owr_video_renderer_new none example_source 0 0)).bind fun r =>
      _owr_video_renderer_notify_source_changed example_render_env
        { r with source := example_source_h264 }).bind fun r =>
      r.priv.renderer_bin).map
        (fun b => b.children.map fun s => (s.id, s.element.factory_name)) =
      some [(0, "glupload"), (2, "glcolorconvert"), (1, "glcolorbalance"),
        (3, "glvideoflip"), (4, "glimagesink"), (5, "h264parse"), (6, "openh264dec")] := by
  refine ⟨?_, ?_, ?_, ?_⟩ <;> decide

/-- Claim C13: on a source without hardware colour balance, building into
an empty bin puts the conversion stage and the balance stage into the graph
both or not at all: both exactly when the host can make both; the flip
stage is there exactly when the source lacks hardware orientation and the
host can make it, and the display sink is there. -/
theorem C13_conversion_and_balance_together (env : RenderEnv) (r : OwrVideoRenderer)
    (bin : GstBin) (hb : r.priv.renderer_bin = some bin) (hfresh : bin.children = [])
    (hcb : r.source.supports_color_balance = false)
    (hsink : env.host.instantiable VIDEO_SINK = true)
    (hlink : ∀ l, l ≠ [] → ∃ f, (env.link l).2 = some f ∧ env.has_sink_pad f = true) :
    ∃ r' bin', owr_video_renderer_reconfigure_element env r = some r' ∧
      r'.priv.renderer_bin = some bin' ∧
      ((some "video-renderer-convert" ∈ bin'.children.map fun s => s.name) ↔
        (some "video-renderer-balance" ∈ bin'.children.map fun s => s.name)) ∧
      ((some "video-renderer-balance" ∈ bin'.children.map fun s => s.name) ↔
        (env.host.instantiable "glcolorbalance" = true ∧
          env.host.instantiable "glcolorconvert" = true)) ∧
      ((some "video-renderer-flip" ∈ bin'.children.map fun s => s.name) ↔
        (r.source.supports_video_orientation = false ∧
          env.host.instantiable "glvideoflip" = true)) ∧
      (some "video-renderer-sink" ∈ bin'.children.map fun s => s.name) := by
  obtain ⟨r', built, hr, hbuilt, first, hbin'⟩ :=
    reconfigure_element_returns env r bin hb hsink hlink
  obtain ⟨unnamed, hun, hnames⟩ :=
    reconfigure_stages_fresh_names env r bin built hfresh hbuilt
  have hU : ∀ x : String, some x ∉ unnamed := by
    intro x hx
    exact absurd (hun _ hx) (by simp)
  refine ⟨r', _, hr, hbin', ?_⟩
  simp only [hnames, hcb]
  cases env.host.instantiable "glupload" <;>
    cases env.host.instantiable "glcolorbalance" <;>
    cases env.host.instantiable "glcolorconvert" <;>
    cases r.source.supports_video_orientation <;>
    cases env.host.instantiable "glvideoflip" <;>
    simp [hU]

/-- Witness of C13: the example environment without `glcolorconvert`. -/
theorem C13_conversion_and_balance_together_witness :
    ∃ r' bin', owr_video_renderer_reconfigure_element example_render_env_no_convert
        (owr_video_renderer_new none example_source 0 0) = some r' ∧
      r'.priv.renderer_bin = some bin' ∧
      ((some "video-renderer-convert" ∈ bin'.children.map fun s => s.name) ↔
        (some "video-renderer-balance" ∈ bin'.children.map fun s => s.name)) ∧
      ((some "video-renderer-balance" ∈ bin'.children.map fun s => s.name) ↔
        (example_render_env_no_convert.host.instantiable "glcolorbalance" = true ∧
          example_render_env_no_convert.host.instantiable "glcolorconvert" = true)) ∧
      ((some "video-renderer-flip" ∈ bin'.children.map fun s => s.name) ↔
        (example_source.supports_video_orientation = false ∧
          example_render_env_no_convert.host.instantiable "glvideoflip" = true)) ∧
      (some "video-renderer-sink" ∈ bin'.children.map fun s => s.name) :=
  C13_conversion_and_balance_together example_render_env_no_convert
    (owr_video_renderer_new none example_source 0 0)
    { bin_id := 0, children := [], ghost_pad := none } rfl rfl rfl rfl
    (by
      intro l hl
      cases l with
      | nil => exact absurd rfl hl
      | cons a t => exact ⟨a, rfl, rfl⟩)

/-- Counterexample to C14 as stated: in the example environment whose link
step reports failure (`link_ok` false on the stages built) and still yields
a first stage, `owr_video_renderer_reconfigure_element` returns and the bin
exposes the sink pad of that first stage, instance 0, as its ghost pad. -/
theorem C14_failed_link_still_exposes_port :
    (reconfigure_stages example_render_env_link_fails
        (owr_video_renderer_new none example_source 0 0)
        { bin_id := 0, children := [], ghost_pad := none }).map
      (fun built => (example_render_env_link_fails.link built.children).1) = some false ∧
    ((owr_video_renderer_reconfigure_element example_render_env_link_fails
        (owr_video_renderer_new none example_source 0 0)).bind fun r =>
      r.priv.renderer_bin).map (fun b => b.ghost_pad) = some (some 0) := by
  constructor <;> decide

/-- Claim C14, amended: once the stages are built, the function stops at its
assertion, exposing no port, when the link step yields no first stage or a
first stage without a pad "sink"; when the link step yields a first stage
with a pad "sink" the function returns, whatever the link step reports in
`link_ok`, and the bin has a ghost pad: on a bin that had none it exposes the
pad of that first stage, and on a bin that had one from an earlier build it
stays on the stage it exposed before. -/
theorem C14_port_exposed_iff_first_stage (env : RenderEnv) (r : OwrVideoRenderer)
    (bin : GstBin) (built : BuiltStages) (hb : r.priv.renderer_bin = some bin)
    (hbuilt : reconfigure_stages env r bin = some built) :
    ((env.link built.children).2 = none →
      owr_video_renderer_reconfigure_element env r = none) ∧
    (∀ first, (env.link built.children).2 = some first → env.has_sink_pad first = false →
      owr_video_renderer_reconfigure_element env r = none) ∧
    (∀ first, (env.link built.children).2 = some first → env.has_sink_pad first = true →
      ∃ r' bin', owr_video_renderer_reconfigure_element env r = some r' ∧
        r'.priv.renderer_bin = some bin' ∧
        bin'.children = built.children ∧
        bin'.ghost_pad = gst_element_add_pad bin.ghost_pad first.id ∧
        bin'.ghost_pad.isSome = true ∧
        (bin.ghost_pad = none → bin'.ghost_pad = some first.id) ∧
        (∀ t, bin.ghost_pad = some t → bin'.ghost_pad = some t)) ∧
    ((owr_video_renderer_reconfigure_element env r).isSome = true ↔
      ∃ first, (env.link built.children).2 = some first ∧ env.has_sink_pad first = true) := by
  have heq := reconfigure_element_eq env r bin built hb hbuilt
  refine ⟨?_, ?_, ?_, ?_⟩
  · intro h
    rw [heq, h]
  · intro first h hp
    rw [heq, h]
    simp [hp]
  · intro first h hp
    rw [heq, h]
    simp only [hp, if_true]
    refine ⟨_, _, rfl, rfl, rfl, rfl, ?_, ?_, ?_⟩
    · cases hg : bin.ghost_pad <;> simp [gst_element_add_pad]
    · intro hg
      simp [hg, gst_element_add_pad]
    · intro t hg
      simp [hg, gst_element_add_pad]
  · rw [heq]
    cases hl : (env.link built.children).2 with
    | none => simp
    | some first =>
      cases hp : env.has_sink_pad first <;> simp [hp]

/-- Witness of C14: the example environment whose link step reports
failure. -/
theorem C14_port_exposed_iff_first_stage_witness :
    (owr_video_renderer_reconfigure_element example_render_env_link_fails
      (owr_video_renderer_new none example_source 0 0)).isSome = true :=
  ((C14_port_exposed_iff_first_stage example_render_env_link_fails
    (owr_video_renderer_new none example_source 0 0)
    { bin_id := 0, children := [], ghost_pad := none }
    ((reconfigure_stages example_render_env_link_fails
      (owr_video_renderer_new none example_source 0 0)
      { bin_id := 0, children := [], ghost_pad := none }).get (by decide))
    rfl (by simp)).2.2.2).mpr
    ⟨{ id := 0, name := some "video-renderer-upload",
       element := { factory_name := "glupload", props := [] },
       channels := none, inner := none, window_handle := none }, by rfl, by rfl⟩

theorem drive_channels_eq_map (d : Bool) (chs : List GstColorBalanceChannel) :
    drive_channels d chs =
      chs.map fun ch =>
        if ch.label = some "SATURATION" ∨ ch.label = some "BRIGHTNESS" then
          { ch with value := disabled_channel_value d ch }
        else ch := by
  induction chs with
  | nil => rfl
  | cons ch rest ih => simp [drive_channels, ih]

theorem drive_channels_twice (d d' : Bool) (chs : List GstColorBalanceChannel) :
    drive_channels d (drive_channels d' chs) = drive_channels d chs := by
  induction chs with
  | nil => rfl
  | cons ch rest ih =>
    simp only [drive_channels, ih]
    congr 1
    by_cases hl : ch.label = some "SATURATION" ∨ ch.label = some "BRIGHTNESS"
    · simp [hl, disabled_channel_value]
    · simp [hl]

theorem gint_wrap_of_range (i : Int) (h1 : -2147483648 ≤ i) (h2 : i < 2147483648) :
    gint_wrap i = i := by
  unfold gint_wrap
  omega

/-- Claim C15: on a balance stage, `renderer_disabled` sets every channel
labelled SATURATION or BRIGHTNESS to its `min_value` when the renderer is
disabled and to `(min_value + max_value) / 2` when it is enabled, whatever
value the channel had, and leaves the other channels and the source bin as
they were; driving again replaces the result of the earlier drive, so
enabled, disabled, enabled ends where a single enabled drive ends; the
midpoint is the integer quotient of the sum, rounded towards zero, for
bounds whose sum is a `gint`. -/
theorem C15_disabled_drives_saturation_and_brightness (b : Stage)
    (chs : List GstColorBalanceChannel) (source_bin : List Stage)
    (hb : b.channels = some chs) :
    (∀ d, renderer_disabled d (some b) source_bin =
      (some { b with channels := some (drive_channels d chs) }, source_bin)) ∧
    (∀ d, drive_channels d chs =
      chs.map fun ch =>
        if ch.label = some "SATURATION" ∨ ch.label = some "BRIGHTNESS" then
          { ch with value :=
            if d then ch.min_value
            else Int.tdiv (gint_wrap (ch.min_value + ch.max_value)) 2 }
        else ch) ∧
    (∀ d d', drive_channels d (drive_channels d' chs) = drive_channels d chs) ∧
    drive_channels false (drive_channels true (drive_channels false chs)) =
      drive_channels false chs ∧
    (∀ ch : GstColorBalanceChannel, -2147483648 ≤ ch.min_value + ch.max_value →
      ch.min_value + ch.max_value < 2147483648 →
      disabled_channel_value false ch = Int.tdiv (ch.min_value + ch.max_value) 2) := by
  refine ⟨?_, ?_, ?_, ?_, ?_⟩
  · intro d
    simp [renderer_disabled, hb]
  · intro d
    rw [drive_channels_eq_map]
    rfl
  · intro d d'
    exact drive_channels_twice d d' chs
  · rw [drive_channels_twice, drive_channels_twice]
  · intro ch h1 h2
    simp [disabled_channel_value, gint_wrap_of_range _ h1 h2]

/-- Witness of C15: the balance element of the example environment, whose
saturation and brightness run from -1000 to 1000 and stand at 7: enabled,
disabled, enabled leaves both at 0. -/
theorem C15_disabled_drives_saturation_and_brightness_witness :
    (drive_channels false (drive_channels true (drive_channels false
      [{ label := some "HUE", min_value := -1000, max_value := 1000, value := 3 },
       { label := some "SATURATION", min_value := -1000, max_value := 1000, value := 7 },
       { label := some "BRIGHTNESS", min_value := -1000, max_value := 1000, value := 7 }]))).map
      (fun ch => ch.value) = [3, 0, 0] :=
  ((C15_disabled_drives_saturation_and_brightness
    { id := 1, name := some "video-renderer-balance",
      element := { factory_name := "glcolorbalance", props := [] },
      channels := some
        [{ label := some "HUE", min_value := -1000, max_value := 1000, value := 3 },
         { label := some "SATURATION", min_value := -1000, max_value := 1000, value := 7 },
         { label := some "BRIGHTNESS", min_value := -1000, max_value := 1000, value := 7 }],
      inner := none, window_handle := none }
    _ [] rfl).2.2.2.1 ▸ by decide)

/-- Claim C16: a notification whose tag is not the renderer's tag, a renderer
without a tag included, leaves the renderer exactly as it was, with or
without a handle; so does a notification without a tag. -/
theorem C16_other_tag_changes_nothing (env : RenderEnv) (r : OwrVideoRenderer)
    (tag : String) (have_handle : Bool) (new_handle : Nat)
    (h : r.priv.tag ≠ some tag) :
    _owr_video_renderer_notify_tag_changed env r (some tag) have_handle new_handle = some r ∧
    _owr_video_renderer_notify_tag_changed env r none have_handle new_handle = some r := by
  constructor
  · simp [_owr_video_renderer_notify_tag_changed, notify_tag_changed_bound, h]
  · simp [_owr_video_renderer_notify_tag_changed, notify_tag_changed_bound]

/-- Witness of C16: a renderer with the tag "view" is notified for the tag
"other" with a handle. -/
theorem C16_other_tag_changes_nothing_witness :
    _owr_video_renderer_notify_tag_changed example_render_env
      (owr_video_renderer_new (some "view") example_source 0 0) (some "other") true 42 =
      some (owr_video_renderer_new (some "view") example_source 0 0) :=
  (C16_other_tag_changes_nothing example_render_env
    (owr_video_renderer_new (some "view") example_source 0 0) "other" true 42
    (by decide)).1

/-- Claim C17 at its failing input: a renderer with the tag "view" is
notified for "view" with the window handle 42.  A new bin, number 0, is
built and installed as the active sink, and its display sink is instance 4;
the window handle is set on instance 5, a second sink made by the second
call of `get_sink`, which is in no bin; no element of the graph has a window
handle.  Without a handle the active sink is cleared and no bin is built. -/
theorem C17_window_handle_set_on_second_sink :
    (notify_tag_changed_bound example_render_env
      (owr_video_renderer_new (some "view") example_source 0 0) (some "view") true 42).map
      (fun x => x.1.map fun s => (s.id, s.name, s.window_handle)) =
      some (some (5, some "video-renderer-sink", some 42)) ∧
    ((_owr_video_renderer_notify_tag_changed example_render_env
      (owr_video_renderer_new (some "view") example_source 0 0) (some "view") true 42).bind
      fun r => r.priv.renderer_bin).map
      (fun b => b.children.map fun s => (s.id, s.name, s.window_handle)) =
      some [(0, some "video-renderer-upload", none), (2, some "video-renderer-convert", none),
        (1, some "video-renderer-balance", none), (3, some "video-renderer-flip", none),
        (4, some "video-renderer-sink", none)] ∧
    (_owr_video_renderer_notify_tag_changed example_render_env
      (owr_video_renderer_new (some "view") example_source 0 0) (some "view") true 42).map
      (fun r => (r.sink, r.priv.renderer_bin.map fun b => b.bin_id)) =
      some (some 0, some 0) ∧
    (_owr_video_renderer_notify_tag_changed example_render_env
      (owr_video_renderer_new (some "view") example_source 0 0) (some "view") false 42).map
      (fun r => (r.sink, r.priv.renderer_bin.map fun b => b.bin_id)) =
      some (none, none) := by
  refine ⟨?_, ?_, ?_, ?_⟩ <;> decide

/-- Claim C18: `_owr_handle_gst_sync_message` returns DROP exactly when a
resolver is installed, the message is a context-needed request and the
resolver, invoked with the context type of the request, returns a context;
that context is then set on the element the request came from; in every
other case it returns PASS and sets no context; the resolver is invoked
exactly for a context-needed request with a resolver installed, and then
with the context type of the request. -/
theorem C18_context_request_handling (r : OwrVideoRenderer) (message : GstMessage) :
    ((_owr_handle_gst_sync_message r message).reply = .DROP ↔
      ∃ resolver context, r.priv.request_context = some resolver ∧
        message.type = .NEED_CONTEXT ∧ resolver message.context_type = some context) ∧
    (∀ resolver context, r.priv.request_context = some resolver →
      message.type = .NEED_CONTEXT → resolver message.context_type = some context →
      (_owr_handle_gst_sync_message r message).set_context = some (message.src, context)) ∧
    ((_owr_handle_gst_sync_message r message).reply ≠ .DROP →
      (_owr_handle_gst_sync_message r message).reply = .PASS ∧
      (_owr_handle_gst_sync_message r message).set_context = none) ∧
    ((_owr_handle_gst_sync_message r message).invoked_with =
      if r.priv.request_context.isSome ∧ message.type = .NEED_CONTEXT then
        some message.context_type
      else none) := by
  unfold _owr_handle_gst_sync_message
  cases hrc : r.priv.request_context with
  | none => simp
  | some resolver =>
    by_cases ht : message.type = .NEED_CONTEXT
    · cases hres : resolver message.context_type with
      | none =>
        simp [ht, hres]
        intro resolver1 context hr
        subst hr
        rw [hres]
        simp
      | some context =>
        simp [ht, hres]
        intro resolver1 context1 hr hc
        subst hr
        rw [hres] at hc
        exact Option.some.inj hc
    · simp [ht]

/-- Witness of C18: a resolver that knows the context type "gst.gl.app"
only. -/
theorem C18_context_request_handling_witness :
    (_owr_handle_gst_sync_message
      (owr_video_renderer_set_request_context_callback
        (owr_video_renderer_new none example_source 0 0)
        (fun t => if t = "gst.gl.app" then some { handle := 9 } else none))
      { type := .NEED_CONTEXT, src := 4, context_type := "gst.gl.app" }).set_context =
      some (4, { handle := 9 }) :=
  (C18_context_request_handling
    (owr_video_renderer_set_request_context_callback
      (owr_video_renderer_new none example_source 0 0)
      (fun t => if t = "gst.gl.app" then some { handle := 9 } else none))
    { type := .NEED_CONTEXT, src := 4, context_type := "gst.gl.app" }).2.1
    _ { handle := 9 } rfl rfl rfl

/-- When the host can make the upload element and the display
sink, the stages `owr_video_renderer_reconfigure_element` puts into an empty
bin are, in this order, the parser, the decoder, the upload stage, the
conversion stage, the balance stage, the flip stage and the display sink,
each of the optional ones there or not; a parser or a decoder is there only
when the codec of the source is not raw, and they are the elements of the
parser and decoder factories of that codec; the display sink is the last
element. -/
theorem reconfigure_element_stage_order (env : RenderEnv) (r : OwrVideoRenderer)
    (bin : GstBin)
    (hb : r.priv.renderer_bin = some bin) (hfresh : bin.children = [])
    (hupload : env.host.instantiable "glupload" = true)
    (hsink : env.host.instantiable VIDEO_SINK = true)
    (hlink : ∀ l, l ≠ [] → ∃ f, (env.link l).2 = some f ∧ env.has_sink_pad f = true) :
    ∃ (r' : OwrVideoRenderer) (bin' : GstBin)
      (parser decoder convert balance flip : Option Stage) (upload sink : Stage),
      owr_video_renderer_reconfigure_element env r = some r' ∧
      r'.priv.renderer_bin = some bin' ∧
      bin'.children = parser.toList ++ decoder.toList ++ [upload] ++ convert.toList ++
        balance.toList ++ flip.toList ++ [sink] ∧
      bin'.children.getLast? = some sink ∧
      (∀ s, parser = some s → s.name = none ∧
        env.codec_type_is_raw r.source.codec_type = false ∧
        env.parser_name r.source.codec_type = some s.element.factory_name) ∧
      (∀ s, decoder = some s → s.name = none ∧
        env.codec_type_is_raw r.source.codec_type = false ∧
        env.host.decoder_name r.source.codec_type = some s.element.factory_name) ∧
      (env.codec_type_is_raw r.source.codec_type = true → parser = none ∧ decoder = none) ∧
      (upload.name = some "video-renderer-upload" ∧ upload.element.factory_name = "glupload") ∧
      (∀ s, convert = some s → s.name = some "video-renderer-convert" ∧
        s.element.factory_name = "glcolorconvert") ∧
      (∀ s, balance = some s → s.name = some "video-renderer-balance" ∧
        s.element.factory_name = "glcolorbalance") ∧
      (∀ s, flip = some s → s.name = some "video-renderer-flip" ∧
        s.element.factory_name = "glvideoflip") ∧
      (sink.name = some "video-renderer-sink" ∧ sink.element.factory_name = VIDEO_SINK) := by
  obtain ⟨r', built, hr, hbuilt, first, hbin'⟩ :=
    reconfigure_element_returns env r bin hb hsink hlink
  obtain ⟨parser, decoder, upload, convert, balance, flip, sink, hch, hp, hd, hus, hu, _, hc,
    _, hbal, _, hf, hsn, hsf⟩ := reconfigure_stages_fresh env r bin built hfresh hbuilt
  rw [hupload] at hus
  obtain ⟨up, hup⟩ := Option.isSome_iff_exists.mp hus
  refine ⟨r', _, parser, decoder, convert, balance, flip, up, sink, hr, hbin', ?_, ?_, hp, hd,
    ?_, hu up hup, hc, hbal, hf, hsn, hsf⟩
  · simp only
    rw [hch, hup]
    rfl
  · simp only
    rw [hch]
    simp
  · intro hraw
    constructor
    · cases hpar : parser with
      | none => rfl
      | some s =>
        have := (hp s hpar).2.1
        rw [hraw] at this
        exact absurd this (by simp)
    · cases hdec : decoder with
      | none => rfl
      | some s =>
        have := (hd s hdec).2.1
        rw [hraw] at this
        exact absurd this (by simp)

/-- The stages of a tagless renderer on the H264 source in the example
environment. -/
theorem reconfigure_element_stage_order_example :
    ∃ (r' : OwrVideoRenderer) (bin' : GstBin)
      (parser decoder convert balance flip : Option Stage) (upload sink : Stage),
      owr_video_renderer_reconfigure_element example_render_env
        (owr_video_renderer_new none example_source_h264 0 0) = some r' ∧
      r'.priv.renderer_bin = some bin' ∧
      bin'.children = parser.toList ++ decoder.toList ++ [upload] ++ convert.toList ++
        balance.toList ++ flip.toList ++ [sink] ∧
      bin'.children.getLast? = some sink ∧
      (∀ s, parser = some s → s.name = none ∧
        example_render_env.codec_type_is_raw
          (owr_video_renderer_new none example_source_h264 0 0).source.codec_type = false ∧
        example_render_env.parser_name
          (owr_video_renderer_new none example_source_h264 0 0).source.codec_type =
          some s.element.factory_name) ∧
      (∀ s, decoder = some s → s.name = none ∧
        example_render_env.codec_type_is_raw
          (owr_video_renderer_new none example_source_h264 0 0).source.codec_type = false ∧
        example_render_env.host.decoder_name
          (owr_video_renderer_new none example_source_h264 0 0).source.codec_type =
          some s.element.factory_name) ∧
      (example_render_env.codec_type_is_raw
          (owr_video_renderer_new none example_source_h264 0 0).source.codec_type = true →
        parser = none ∧ decoder = none) ∧
      (upload.name = some "video-renderer-upload" ∧ upload.element.factory_name = "glupload") ∧
      (∀ s, convert = some s → s.name = some "video-renderer-convert" ∧
        s.element.factory_name = "glcolorconvert") ∧
      (∀ s, balance = some s → s.name = some "video-renderer-balance" ∧
        s.element.factory_name = "glcolorbalance") ∧
      (∀ s, flip = some s → s.name = some "video-renderer-flip" ∧
        s.element.factory_name = "glvideoflip") ∧
      (sink.name = some "video-renderer-sink" ∧ sink.element.factory_name = VIDEO_SINK) :=
  reconfigure_element_stage_order example_render_env
    (owr_video_renderer_new none example_source_h264 0 0)
    { bin_id := 0, children := [], ghost_pad := none } rfl rfl rfl rfl
    (by
      intro l hl
      cases l with
      | nil => exact absurd rfl hl
      | cons a t => exact ⟨a, rfl, rfl⟩)

/-- Claim C19 at its failing input: a tagless renderer on the H264 source, on
a host that cannot make `glupload`.  The call
`gst_bin_add(..., upload)` is made on `NULL` and adds nothing, the function
returns, and the graph it leaves holds the parser, the decoder and the
display sink, with the pad of the parser exposed, and no upload stage.  On
the example host the same build has the upload stage between decoder and
sink. -/
theorem C19_graph_without_upload_stage :
    (owr_video_renderer_reconfigure_element example_render_env_no_upload
      (owr_video_renderer_new none example_source_h264 0 0)).isSome = true ∧
    ((owr_video_renderer_reconfigure_element example_render_env_no_upload
        (owr_video_renderer_new none example_source_h264 0 0)).bind fun r =>
      r.priv.renderer_bin).map
        (fun b => (b.children.map fun s => (s.id, s.name, s.element.factory_name),
          b.ghost_pad)) =
      some ([(0, none, "h264parse"), (1, none, "openh264dec"),
        (2, some "video-renderer-sink", "glimagesink")], some 0) ∧
    ((owr_video_renderer_reconfigure_element example_render_env
        (owr_video_renderer_new none example_source_h264 0 0)).bind fun r =>
      r.priv.renderer_bin).map
        (fun b => b.children.map fun s => (s.id, s.name, s.element.factory_name)) =
      some [(0, none, "h264parse"), (1, none, "openh264dec"),
        (2, some "video-renderer-upload", "glupload"),
        (3, some "video-renderer-sink", "glimagesink")] := by
  refine ⟨?_, ?_, ?_⟩ <;> decide

/-- Claim C20 at its failing input: the source lacks hardware colour balance
and the host can make `glcolorbalance` but not `glcolorconvert`.  The build
puts the instances 0, 2, 3 (upload, flip, sink) into the bin and no balance
stage, and the handler it connects to `notify::disabled` is bound to
instance 1, the balance element that was released, not to `NULL`.  On a
source with hardware colour balance the handler is bound to `NULL`. -/
theorem C20_handler_bound_to_released_balance :
    ((owr_video_renderer_reconfigure_element example_render_env_no_convert
        (owr_video_renderer_new none example_source 0 0)).bind fun r =>
      r.priv.renderer_bin).map (fun b => b.children.map fun s => (s.id, s.name)) =
      some [(0, some "video-renderer-upload"), (2, some "video-renderer-flip"),
        (3, some "video-renderer-sink")] ∧
    (owr_video_renderer_reconfigure_element example_render_env_no_convert
        (owr_video_renderer_new none example_source 0 0)).map
      (fun r => r.disabled_handlers) = some [some 1] ∧
    (owr_video_renderer_reconfigure_element example_render_env_no_convert
        (owr_video_renderer_new none example_source_h264 0 0)).map
      (fun r => r.disabled_handlers) = some [none] := by
  refine ⟨?_, ?_, ?_⟩ <;> decide

/-! ## Encoder tuning -/

theorem get_field_set_field_same (fs : List (String × GValue)) (k : String) (v : GValue) :
    get_field (set_field fs k v) k = some v := by
  induction fs with
  | nil => simp [set_field, get_field]
  | cons kv rest ih =>
    obtain ⟨k1, v1⟩ := kv
    by_cases h : k1 = k
    · simp [set_field, get_field, h]
    · simp [set_field, get_field, h, ih]

theorem get_field_set_field_other (fs : List (String × GValue)) (k k2 : String) (v : GValue)
    (hk : k ≠ k2) : get_field (set_field fs k v) k2 = get_field fs k2 := by
  induction fs with
  | nil => simp [set_field, get_field, hk]
  | cons kv rest ih =>
    obtain ⟨k1, v1⟩ := kv
    by_cases h : k1 = k
    · subst h
      simp [set_field, get_field, hk]
    · simp [set_field, get_field, h, ih]

/-- The encoder a write to the payload bitrate leaves behind: an accepted
write runs the bindings, a rejected one changes nothing. -/
theorem payload_set_bitrate_fst (p : OwrPayload) (enc : Encoder) (v : Nat) :
    (payload_set_bitrate p enc v).1 =
      if v ≤ G_MAXUINT then
        { enc with element := sync_bindings v enc.element enc.bindings }
      else enc := by
  by_cases hle : v ≤ G_MAXUINT
  · simp [payload_set_bitrate, g_object_set, param_spec_writable,
      param_spec_construct_only, param_spec_in_range, owr_payload_set_property, hle]
  · simp [payload_set_bitrate, g_object_set, param_spec_writable,
      param_spec_construct_only, param_spec_in_range, hle]

theorem payload_set_bitrate_snd (p : OwrPayload) (enc : Encoder) (v : Nat) :
    (payload_set_bitrate p enc v).2 =
      if v ≤ G_MAXUINT then { p with priv := { p.priv with bitrate := v } } else p := by
  by_cases hle : v ≤ G_MAXUINT
  · simp [payload_set_bitrate, g_object_set, param_spec_writable,
      param_spec_construct_only, param_spec_in_range, owr_payload_set_property, hle]
  · simp [payload_set_bitrate, g_object_set, param_spec_writable,
      param_spec_construct_only, param_spec_in_range, hle]

/-- When the estimate is not a value the bitrate property accepts, it is the
bitrate the payload already has. -/
theorem evaluate_bitrate_of_not_le (oor : gdouble → Nat) (p : OwrPayload)
    (h : ¬ evaluate_bitrate_from_payload oor p ≤ G_MAXUINT) :
    evaluate_bitrate_from_payload oor p = p.priv.bitrate := by
  by_cases hb : p.priv.bitrate = 0
  · exact absurd (evaluate_bitrate_le_of_zero oor p hb) h
  · exact evaluate_bitrate_of_ne_zero oor p hb

/-- The encoder `_owr_payload_create_encoder` returns for H264 is the one the
tuning yields for the payload with its bitrate after the write-back. -/
theorem create_encoder_h264_tuned (host : Host) (plat : Platform) (oor : gdouble → Nat)
    (p : OwrPayload) (e : GstElement) (hc : p.priv.codec_type = .H264)
    (ht : _owr_try_codecs host host.detected_h264_encoders = some e) :
    (_owr_payload_create_encoder host plat oor p).1 =
      some (tune_h264 plat
        { p with priv := { p.priv with bitrate := evaluate_bitrate_from_payload oor p } } e) := by
  obtain ⟨_, _, hprops⟩ := try_codecs_eq_some host _ e ht
  obtain ⟨n, props⟩ := e
  simp only at hprops
  subst hprops
  unfold _owr_payload_create_encoder
  rw [hc]
  simp only [ht, payload_set_bitrate_fst]
  by_cases hle : evaluate_bitrate_from_payload oor p ≤ G_MAXUINT
  · rw [if_pos hle]
    unfold tune_h264
    simp only
    split_ifs <;>
      simp [bind_bitrate, Encoder.set, element_set, set_field, sync_bindings,
        GBinding.deliver]
  · rw [if_neg hle, evaluate_bitrate_of_not_le oor p hle]

/-- The encoder `_owr_payload_create_encoder` returns for VP8 is the one the
tuning yields for the payload with its bitrate after the write-back. -/
theorem create_encoder_vp8_tuned (host : Host) (plat : Platform) (oor : gdouble → Nat)
    (p : OwrPayload) (e : GstElement) (hc : p.priv.codec_type = .VP8)
    (ht : _owr_try_codecs host host.detected_vp8_encoders = some e) :
    (_owr_payload_create_encoder host plat oor p).1 =
      some (tune_vp8 plat
        { p with priv := { p.priv with bitrate := evaluate_bitrate_from_payload oor p } } e) := by
  obtain ⟨_, _, hprops⟩ := try_codecs_eq_some host _ e ht
  obtain ⟨n, props⟩ := e
  simp only at hprops
  subst hprops
  unfold _owr_payload_create_encoder
  rw [hc]
  simp only [ht, payload_set_bitrate_fst]
  by_cases hle : evaluate_bitrate_from_payload oor p ≤ G_MAXUINT
  · rw [if_pos hle]
    simp [tune_vp8, bind_bitrate, element_set, set_field, sync_bindings, GBinding.deliver]
  · rw [if_neg hle, evaluate_bitrate_of_not_le oor p hle]

/-- The encoder `_owr_payload_create_encoder` returns for VP9 is the one the
tuning yields for the payload with its bitrate after the write-back. -/
theorem create_encoder_vp9_tuned (host : Host) (plat : Platform) (oor : gdouble → Nat)
    (p : OwrPayload) (e : GstElement) (hc : p.priv.codec_type = .VP9)
    (ht : _owr_try_codecs host host.detected_vp9_encoders = some e) :
    (_owr_payload_create_encoder host plat oor p).1 =
      some (tune_vp9
        { p with priv := { p.priv with bitrate := evaluate_bitrate_from_payload oor p } } e) := by
  obtain ⟨_, _, hprops⟩ := try_codecs_eq_some host _ e ht
  obtain ⟨n, props⟩ := e
  simp only at hprops
  subst hprops
  unfold _owr_payload_create_encoder
  rw [hc]
  simp only [ht, payload_set_bitrate_fst]
  by_cases hle : evaluate_bitrate_from_payload oor p ≤ G_MAXUINT
  · rw [if_pos hle]
    simp [tune_vp9, bind_bitrate, element_set, set_field, sync_bindings, GBinding.deliver]
  · rw [if_neg hle, evaluate_bitrate_of_not_le oor p hle]

/-- The bitrate `_owr_payload_create_encoder` leaves in the payload when the
codec is H264, VP8 or VP9 and a candidate works. -/
theorem create_encoder_bitrate (host : Host) (plat : Platform) (oor : gdouble → Nat)
    (p : OwrPayload) (e : GstElement)
    (hc : p.priv.codec_type = .H264 ∨ p.priv.codec_type = .VP8 ∨ p.priv.codec_type = .VP9)
    (ht : _owr_try_codecs host (encoder_candidates host p.priv.codec_type) = some e) :
    (_owr_payload_create_encoder host plat oor p).2 =
      { p with priv := { p.priv with bitrate := evaluate_bitrate_from_payload oor p } } := by
  apply create_encoder_payload host plat oor p hc
  unfold _owr_payload_create_encoder
  rcases hc with h | h | h <;> rw [h] at ht ⊢ <;>
    simp only [encoder_candidates] at ht <;> simp [ht]

/-- A write of a value the bitrate property accepts, on an encoder fed by
one binding: the target of the binding takes the delivered value and the
binding stays. -/
theorem payload_set_bitrate_one_binding (p : OwrPayload) (enc : Encoder) (b : GBinding)
    (v : Nat) (hb : enc.bindings = [b]) (hv : v ≤ G_MAXUINT) :
    (payload_set_bitrate p enc v).1.bindings = [b] ∧
    (payload_set_bitrate p enc v).2.priv.bitrate = v ∧
    get_field (payload_set_bitrate p enc v).1.element.props b.target_property =
      some (b.deliver v) := by
  rw [payload_set_bitrate_fst, payload_set_bitrate_snd, if_pos hv, if_pos hv, hb]
  refine ⟨rfl, rfl, ?_⟩
  simp [sync_bindings, element_set, get_field_set_field_same]

/-- Claim C21: for an H264 payload for which a detected encoder works,
`_owr_payload_create_encoder` returns that encoder tuned by its factory name:
`openh264enc` has gop-size 0, rate-control `bitrate`, complexity `low` and
the payload bitrate bound unconverted; `x264enc` has the bitrate bound through
the kbit/s conversion, speed-preset `ultrafast` and tune
`fastdecode+zerolatency`; `vtenc_h264` has the bitrate bound through the
kbit/s conversion, frame reordering off, realtime on, the quality constant of
the build and max-keyframe-interval `G_MAXINT`; `omxh264enc` has no property
set and no binding; every other name has the unconverted bitrate binding and
nothing else.  Two elements of the same factory name get the same tuning. -/
theorem C21_h264_tuning_by_factory_name (host : Host) (plat : Platform)
    (oor : gdouble → Nat) (p : OwrPayload) (e : GstElement)
    (hc : p.priv.codec_type = .H264)
    (ht : _owr_try_codecs host host.detected_h264_encoders = some e) :
    ∃ enc : Encoder,
      (_owr_payload_create_encoder host plat oor p).1 = some enc ∧
      enc.element.factory_name = e.factory_name ∧
      (e.factory_name = "openh264enc" →
        enc.element.props =
          [("gop-size", .int 0), ("rate-control", .string "bitrate"),
            ("complexity", .string "low"),
            ("bitrate", .uint (evaluate_bitrate_from_payload oor p))] ∧
        enc.bindings =
          [{ source_property := "bitrate", target_property := "bitrate",
             transform := .direct }]) ∧
      (e.factory_name = "x264enc" →
        enc.element.props =
          [("bitrate", .uint (evaluate_bitrate_from_payload oor p / 1000)),
            ("speed-preset", .string "ultrafast"),
            ("tune", .string "fastdecode+zerolatency")] ∧
        enc.bindings =
          [{ source_property := "bitrate", target_property := "bitrate",
             transform := .to_kbps }]) ∧
      (e.factory_name = "vtenc_h264" →
        enc.element.props =
          [("bitrate", .uint (evaluate_bitrate_from_payload oor p / 1000)),
            ("allow-frame-reordering", .boolean false),
            ("realtime", .boolean true),
            ("quality", .double
              (if plat.apple && plat.target_os_iphone then .finite false 0 0
               else .finite false 1 (-1))),
            ("max-keyframe-interval", .int 2147483647)] ∧
        enc.bindings =
          [{ source_property := "bitrate", target_property := "bitrate",
             transform := .to_kbps }]) ∧
      (e.factory_name = "omxh264enc" →
        enc.element.props = [] ∧ enc.bindings = []) ∧
      (e.factory_name ≠ "openh264enc" → e.factory_name ≠ "x264enc" →
        e.factory_name ≠ "vtenc_h264" → e.factory_name ≠ "omxh264enc" →
        enc.element.props =
          [("bitrate", .uint (evaluate_bitrate_from_payload oor p))] ∧
        enc.bindings =
          [{ source_property := "bitrate", target_property := "bitrate",
             transform := .direct }]) ∧
      (∀ (host2 : Host) (e2 : GstElement),
        _owr_try_codecs host2 host2.detected_h264_encoders = some e2 →
        e2.factory_name = e.factory_name →
        (_owr_payload_create_encoder host2 plat oor p).1 = some enc) := by
  refine ⟨_, create_encoder_h264_tuned host plat oor p e hc ht,
    tune_h264_factory_name plat _ e, ?_, ?_, ?_, ?_, ?_, ?_⟩
  all_goals obtain ⟨_, _, hprops⟩ := try_codecs_eq_some host _ e ht
  all_goals obtain ⟨n, props⟩ := e
  all_goals simp only at hprops
  all_goals subst hprops
  · intro hn
    simp only at hn
    subst hn
    simp [tune_h264, bind_bitrate, Encoder.set, element_set, set_field, GBinding.deliver]
  · intro hn
    simp only at hn
    subst hn
    simp [tune_h264, bind_bitrate, Encoder.set, element_set, set_field, GBinding.deliver,
      binding_transform_to_kbps]
  · intro hn
    simp only at hn
    subst hn
    simp [tune_h264, bind_bitrate, Encoder.set, element_set, set_field, GBinding.deliver,
      binding_transform_to_kbps, G_MAXINT]
  · intro hn
    simp only at hn
    subst hn
    simp [tune_h264]
  · intro h1 h2 h3 h4
    simp only at h1 h2 h3 h4
    simp [tune_h264, h1, h2, h3, h4, bind_bitrate, element_set, set_field, GBinding.deliver]
  · intro host2 e2 ht2 hn2
    obtain ⟨_, _, hprops2⟩ := try_codecs_eq_some host2 _ e2 ht2
    obtain ⟨n2, props2⟩ := e2
    simp only at hprops2 hn2
    subst hprops2
    subst hn2
    exact create_encoder_h264_tuned host2 plat oor p _ hc ht2

/-- Witness of C21: on the example host `openh264enc` does not work and
`x264enc` does, so the example payload gets an `x264enc` encoder. -/
theorem C21_h264_tuning_by_factory_name_witness :
    ∃ enc : Encoder,
      (_owr_payload_create_encoder example_host example_platform (fun _ => 0)
        example_payload).1 = some enc ∧
      enc.element.factory_name = "x264enc" ∧
      enc.element.props =
        [("bitrate", .uint 460), ("speed-preset", .string "ultrafast"),
          ("tune", .string "fastdecode+zerolatency")] ∧
      enc.bindings =
        [{ source_property := "bitrate", target_property := "bitrate",
           transform := .to_kbps }] := by
  obtain ⟨enc, h1, h2, _, h4, _⟩ :=
    C21_h264_tuning_by_factory_name example_host example_platform (fun _ => 0)
      example_payload { factory_name := "x264enc", props := [] } rfl (by decide)
  exact ⟨enc, h1, h2, h4 rfl⟩

/-- The tuning of a VP8 encoder on a freshly made element, written out. -/
theorem tune_vp8_fresh (plat : Platform) (p : OwrPayload) (n : String) :
    tune_vp8 plat p { factory_name := n, props := [] } =
      { element :=
          { factory_name := n,
            props :=
              [("end-usage", .int 1), ("deadline", .int64 1),
                ("cpu-used", .int
                  (if (plat.apple && plat.target_os_iphone && !plat.target_iphone_simulator)
                    || plat.android then -12 else -6)),
                ("min-quantizer", .int 2), ("buffer-initial-size", .int 300),
                ("buffer-optimal-size", .int 300), ("buffer-size", .int 400),
                ("dropframe-threshold", .int 30), ("lag-in-frames", .int 0),
                ("timebase", .fraction 1 90000), ("error-resilient", .int 1),
                ("keyframe-mode", .int 0), ("target-bitrate", .uint p.priv.bitrate)] },
        bindings :=
          [{ source_property := "bitrate", target_property := "target-bitrate",
             transform := .direct }] } := by
  rfl

/-- The tuning of a VP9 encoder on a freshly made element, written out. -/
theorem tune_vp9_fresh (p : OwrPayload) (n : String) :
    tune_vp9 p { factory_name := n, props := [] } =
      { element :=
          { factory_name := n,
            props :=
              [("end-usage", .int 1), ("deadline", .int64 1), ("cpu-used", .int 3),
                ("min-quantizer", .int 2), ("max-quantizer", .int 52),
                ("buffer-initial-size", .int 500), ("buffer-optimal-size", .int 600),
                ("buffer-size", .int 1000), ("dropframe-threshold", .int 30),
                ("lag-in-frames", .int 0), ("timebase", .fraction 1 90000),
                ("error-resilient", .int 1), ("resize-allowed", .boolean true),
                ("keyframe-mode", .int 0), ("target-bitrate", .uint p.priv.bitrate)] },
        bindings :=
          [{ source_property := "bitrate", target_property := "target-bitrate",
             transform := .direct }] } := by
  rfl

/-- Claim C23: for a VP8 or VP9 payload for which a detected encoder works,
the encoder returned by `_owr_payload_create_encoder` has end-usage 1,
deadline 1, min-quantizer 2, dropframe-threshold 30, lag-in-frames 0,
timebase 1/90000, error-resilient 1 and keyframe-mode 0; its one binding
feeds target-bitrate with the payload bitrate unconverted, at creation and
after a later write; cpu-used is 3 for VP9 and, for VP8, -12 on a mobile
build and -6 otherwise; resize-allowed is true for VP9 and is not set for
VP8. -/
theorem C23_vp8_vp9_tuning (host : Host) (plat : Platform)
    (oor : gdouble → Nat) (p : OwrPayload) (e : GstElement)
    (hc : p.priv.codec_type = .VP8 ∨ p.priv.codec_type = .VP9)
    (ht : _owr_try_codecs host (encoder_candidates host p.priv.codec_type) = some e) :
    ∃ enc : Encoder,
      (_owr_payload_create_encoder host plat oor p).1 = some enc ∧
      get_field enc.element.props "end-usage" = some (.int 1) ∧
      get_field enc.element.props "deadline" = some (.int64 1) ∧
      get_field enc.element.props "min-quantizer" = some (.int 2) ∧
      get_field enc.element.props "dropframe-threshold" = some (.int 30) ∧
      get_field enc.element.props "lag-in-frames" = some (.int 0) ∧
      get_field enc.element.props "timebase" = some (.fraction 1 90000) ∧
      get_field enc.element.props "error-resilient" = some (.int 1) ∧
      get_field enc.element.props "keyframe-mode" = some (.int 0) ∧
      enc.bindings =
        [{ source_property := "bitrate", target_property := "target-bitrate",
           transform := .direct }] ∧
      get_field enc.element.props "target-bitrate" =
        some (.uint (_owr_payload_create_encoder host plat oor p).2.priv.bitrate) ∧
      (∀ b : Nat, b ≤ G_MAXUINT →
        get_field (payload_set_bitrate (_owr_payload_create_encoder host plat oor p).2
          enc b).1.element.props "target-bitrate" = some (.uint b)) ∧
      get_field enc.element.props "cpu-used" =
        some (.int
          (if p.priv.codec_type = .VP9 then 3
           else if (plat.apple && plat.target_os_iphone && !plat.target_iphone_simulator)
             || plat.android then -12
           else -6)) ∧
      get_field enc.element.props "resize-allowed" =
        (if p.priv.codec_type = .VP9 then some (.boolean true) else none) := by
  have hpay := create_encoder_bitrate host plat oor p e (Or.inr hc) ht
  have hbind : ∀ (q : OwrPayload) (enc : Encoder),
      enc.bindings =
        [{ source_property := "bitrate", target_property := "target-bitrate",
           transform := .direct }] →
      ∀ b : Nat, b ≤ G_MAXUINT →
        get_field (payload_set_bitrate q enc b).1.element.props "target-bitrate" =
          some (.uint b) := by
    intro q enc hb b hle
    exact (payload_set_bitrate_one_binding q enc _ b hb hle).2.2
  obtain ⟨_, _, hprops⟩ := try_codecs_eq_some host _ e ht
  obtain ⟨n, props⟩ := e
  simp only at hprops
  subst hprops
  rw [hpay]
  rcases hc with h | h
  · rw [h] at ht
    simp only [encoder_candidates] at ht
    have hcre := create_encoder_vp8_tuned host plat oor p _ h ht
    rw [tune_vp8_fresh] at hcre
    have h9 : (p.priv.codec_type = OwrCodecType.VP9) = False := by rw [h]; simp
    refine ⟨_, hcre, rfl, rfl, rfl, rfl, rfl, rfl, rfl, rfl, rfl, rfl, hbind _ _ rfl, ?_, ?_⟩
    · simp only [h9, if_false]
      rfl
    · simp only [h9, if_false]
      rfl
  · rw [h] at ht
    simp only [encoder_candidates] at ht
    have hcre := create_encoder_vp9_tuned host plat oor p _ h ht
    rw [tune_vp9_fresh] at hcre
    have h9 : (p.priv.codec_type = OwrCodecType.VP9) = True := by rw [h]; simp
    refine ⟨_, hcre, rfl, rfl, rfl, rfl, rfl, rfl, rfl, rfl, rfl, rfl, hbind _ _ rfl, ?_, ?_⟩
    · simp only [h9, if_true]
      rfl
    · simp only [h9, if_true]
      rfl

/-- Witness of C23: a VP8 payload on the example host, a desktop build. -/
theorem C23_vp8_vp9_tuning_witness :
    ∃ enc : Encoder,
      (_owr_payload_create_encoder example_host example_platform (fun _ => 0)
        { example_payload with
          priv := { example_payload.priv with codec_type := .VP8 } }).1 = some enc ∧
      get_field enc.element.props "cpu-used" = some (.int (-6)) ∧
      get_field enc.element.props "target-bitrate" = some (.uint 460800) ∧
      get_field enc.element.props "resize-allowed" = none := by
  obtain ⟨enc, h1, _, _, _, _, _, _, _, _, _, h2, _, h3, h4⟩ :=
    C23_vp8_vp9_tuning example_host example_platform (fun _ => 0)
      { example_payload with priv := { example_payload.priv with codec_type := .VP8 } }
      { factory_name := "vp8enc", props := [] } (Or.inl rfl) (by decide)
  exact ⟨enc, h1, h3, h2, h4⟩

/-! ## Packetizer and depacketizer -/

end Owr
